import Mathlib

/-!
Verification model of the fleeting-plugin-fleetingd VM pool manager.

The Go sources (the `Inventory` lifecycle code, the `InstanceGroup` provider
facade, and the nftables ruleset template) are embedded shallowly:

* The shared mutable state (`Inventory`) becomes an explicit state record that
  every operation threads through; Go maps become association lists
  (`instances`) and a string set (`ipamSlots`) with operations mirroring Go map
  assignment, lookup and delete.
* External effects (key generation, random bytes, file and image creation,
  listing network interfaces, running the `nft` binary) are supplied as
  explicit `Except`-valued environment oracles, one per call site, so every
  error path of the source is reachable in the model.
* Each operation reports, besides the next state and its result, how many
  shared (`rHeld`) and exclusive (`wHeld`) acquisitions of the inventory's
  readers-writer lock it still holds at the point of returning; the embedding
  increments and decrements these exactly where the source calls
  `RLock`/`RUnlock`/`Lock`/`Unlock`.
* Go `sync.Once` is embedded as the boolean `prebuildDone`, set once the
  guarded function has run (regardless of that function's error), which is
  exactly `sync.Once.Do`'s semantics.
* A Go panic (the nil-function-call in `DestroyInstance`) is the `Res.fault`
  outcome, distinct from an ordinary returned `error` (`Res.err`).
* Goroutine interleavings are resolved sequentially: an instance's reaper
  goroutine runs when its VM terminates, i.e. at the `prebuildDone` channel
  receive for the prebuild VM and inside `DestroyInstance`'s wait loop for
  worker VMs (the cancelled child is assumed to exit, which is the only
  schedule the sequential model needs).
-/

namespace Fleetingd

/-- Result of an operation: a normal value, a returned Go `error`, or a runtime
panic (`fault`). -/
inductive Res (α : Type) where
  | ok (val : α)
  | err (msg : String)
  | fault (msg : String)
deriving Repr, DecidableEq

/-- `const MaxIPAMSlots = 255 / 4` (integer division, = 63). -/
def MaxIPAMSlots : Nat := 255 / 4

/-- The configuration record of `InstanceGroup`. The `logger` field and the
back-pointer to the inventory are omitted: the model passes the inventory
state explicitly and logging has no semantic effect. -/
structure InstanceGroup where
  EgressInterface : String
  VMDiskDir : String
  VMSubnet : String
  VMNumCPUCores : Nat
  VMMemoryMegabytes : Nat
  VMDiskSizeGB : Nat
  VMPrebuildCloudinitExtraCmds : List String
  VMEnableVirtioConsole : Bool
deriving Repr, DecidableEq

/-- `func (i *InstanceGroup) MakeAddress(index int) string`:
`i.VMSubnet + strconv.Itoa(index)`. -/
def InstanceGroup.MakeAddress (i : InstanceGroup) (index : Nat) : String :=
  i.VMSubnet ++ toString index

/-- One entry of the inventory (`InstanceInfo`). Ed25519 keys are abstract byte
lists; a Go `nil` key is `none`. `reaperSlotBase` records the `subnetBase`
value captured by the instance's reaper goroutine closure (the source captures
it lexically; the model has to store it to run the reaper later). The
`InstanceContextCancelFunc` itself is not stored: cancellation is performed
where the model runs the reaper. -/
structure InstanceInfo where
  Name : String
  HostTapIP : String
  InstanceTapIP : String
  InstanceTapMacAddress : String
  SSHPublicKey : Option (List Nat)
  SSHPrivateKey : Option (List Nat)
  reaperSlotBase : Nat
deriving Repr, DecidableEq

/-- The shared state of `Inventory`. The `*sync.RWMutex` and `*sync.Once`
fields become, respectively, the per-operation lock ledger (see `OpOut`) and
the `prebuildDone` flag. -/
structure Inventory where
  shuttingDown : Bool
  prebuildDone : Bool
  ipamSlots : List String
  instances : List (String × InstanceInfo)
deriving Repr, DecidableEq

/-- `func NewInventory() *Inventory`: empty maps, guard not consumed. -/
def NewInventory : Inventory :=
  { shuttingDown := false, prebuildDone := false, ipamSlots := [], instances := [] }

/-- Go map assignment `m[k] = struct{}{}` on the IPAM set. -/
def setInsert (s : List String) (k : String) : List String :=
  if k ∈ s then s else k :: s

/-- Go `delete(m, k)` on the IPAM set. -/
def setRemove : List String → String → List String
  | [], _ => []
  | x :: xs, k => if x = k then xs else x :: setRemove xs k

/-- Go map lookup `m[k]` on the instances map (`nil` pointer = `none`). -/
def mapFind : List (String × InstanceInfo) → String → Option InstanceInfo
  | [], _ => none
  | (a, b) :: t, k => if a = k then some b else mapFind t k

/-- Go map assignment `m[k] = v` on the instances map. -/
def mapSet : List (String × InstanceInfo) → String → InstanceInfo → List (String × InstanceInfo)
  | [], k, v => [(k, v)]
  | (a, b) :: t, k, v => if a = k then (k, v) :: t else (a, b) :: mapSet t k v

/-- Go `delete(m, k)` on the instances map. -/
def mapRemove : List (String × InstanceInfo) → String → List (String × InstanceInfo)
  | [], _ => []
  | (a, b) :: t, k => if a = k then t else (a, b) :: mapRemove t k

/-- One hex digit, lower case, as produced by Go's `encoding/hex`. -/
def hexDigitChar (n : Nat) : Char :=
  if n < 10 then Char.ofNat (48 + n) else Char.ofNat (87 + n)

/-- `hex.EncodeToString` over a byte list. -/
def hexEncodeBytes (bs : List Nat) : String :=
  String.mk ((bs.map (fun b => [hexDigitChar ((b % 256) / 16), hexDigitChar (b % 16)])).flatten)

/-- Go string slicing `s[a:b]` (the source notes the sliced string is ASCII,
so byte indexing and character indexing agree). -/
def strSliceAscii (s : String) (a b : Nat) : String :=
  String.mk ((s.toList.drop a).take (b - a))

/-- Go string slicing `s[a:]`. -/
def strSliceFrom (s : String) (a : Nat) : String :=
  String.mk (s.toList.drop a)

/-- `fmt.Sprintf("de:51:%s:%s:%s:%s", randomPart[0:2], randomPart[2:4],
randomPart[4:6], randomPart[6:])`. -/
def macFromRandomPart (randomPart : String) : String :=
  "de:51:" ++ strSliceAscii randomPart 0 2 ++ ":" ++ strSliceAscii randomPart 2 4 ++ ":" ++
    strSliceAscii randomPart 4 6 ++ ":" ++ strSliceFrom randomPart 6

/-- Outcome of one inventory operation: next state, result, and the number of
shared (`rHeld`) / exclusive (`wHeld`) holds of `i.lock` the operation still
owns at the moment it returns. A balanced operation returns with both `0`. -/
structure OpOut (α : Type) where
  inv : Inventory
  res : Res α
  rHeld : Nat := 0
  wHeld : Nat := 0
deriving Repr, DecidableEq

/-- Environment oracles for one `BootInstance` call, one per fallible external
call site of the source (prebuild barrier included). A field holds the value
that call site would produce during this call. -/
structure BootEffects where
  prepareWorkdir : Except String Unit := .ok ()
  ensureImages : Except String Unit := .ok ()
  preRandRead : Except String (List Nat) := .ok [0, 0, 0, 0]
  preCreateUserdata : Except String String := .ok "prebuild_userdata.img"
  preDiskImageFileName : Except String String := .ok "noble-server-cloudimg-amd64.img"
  preGetKernelFilePath : Except String String := .ok "noble-server-cloudimg-amd64-vmlinuz-generic"
  preNetInterfaces : Nat → Except String (List String) := fun _ => .ok []
  preNftCreate : Except String Unit := .ok ()
  preNftWrite : Except String Unit := .ok ()
  preNftRun : Except String Unit := .ok ()
  genKey : Except String (List Nat × List Nat) := .ok ([1], [2])
  randRead : Except String (List Nat) := .ok [0, 0, 0, 0]
  createUserdata : Except String String := .ok "userdata.img"
  createOverlay : Except String String := .ok "overlay.img"
  getKernelFilePath : Except String String := .ok "noble-server-cloudimg-amd64-vmlinuz-generic"
  netInterfaces : Nat → Except String (List String) := fun _ => .ok []
  nftCreate : Except String Unit := .ok ()
  nftWrite : Except String Unit := .ok ()
  nftRun : Except String Unit := .ok ()

/-- The slot-allocation loop shared by `Inventory.BootInstance` (lines 134-150)
and `Inventory.PrebuildInstance` (lines 337-353): starting from `subnetBase`
(the callers start at 0) walk bases in steps of `stepSize = 4` and stop at the
first base whose `/30` CIDR key is absent from the IPAM set; `none` models the
`available VM address space exhausted` return taken once
`subnetBase >= 255 - stepSize`. The extra `fuel` argument only makes the
recursion structural (so that runs compute definitionally); the callers pass
`64`, a budget the walk can never consume before the guard-exit bound
`255 - stepSize` ends it (63 scanned bases from 0), so the guard, not the
budget, ends every reachable run. -/
def allocLoop (g : InstanceGroup) (ipamSlots : List String) : Nat → Nat → Option Nat
  | 0, _ => none
  | fuel + 1, subnetBase =>
    if subnetBase ≥ 255 - 4 then none
    else if (g.MakeAddress subnetBase ++ "/30") ∈ ipamSlots then
      allocLoop g ipamSlots fuel (subnetBase + 4)
    else some subnetBase

/-- The TAP-wait loop of `BootInstance` (lines 292-314) and `PrebuildInstance`
(lines 484-506): each attempt lists the host's network interfaces (oracle
`netIfs`, indexed by the attempt counter `checkCounter`); a listing failure is
returned from inside the loop; otherwise the loop ends once the TAP name
appears or the counter exceeds 100. The extra `fuel` argument only makes the
recursion structural; the callers pass `102` and the counter check
`checkCounter > 100` ends every reachable run first (at most 102 polls from
counter 0). -/
def tapWaitLoop (netIfs : Nat → Except String (List String)) (instanceName : String) :
    Nat → Nat → Except String Unit
  | 0, _ => .ok ()
  | fuel + 1, checkCounter =>
    match netIfs checkCounter with
    | .error e => .error e
    | .ok interfaces =>
      if instanceName ∈ interfaces ∨ checkCounter > 100 then .ok ()
      else tapWaitLoop netIfs instanceName fuel (checkCounter + 1)

/-- The per-instance record handed to the nftables template
(`nftablesTemplateInstanceInfo`). -/
structure NftTplInstance where
  Name : String
  InstanceTapIP : String
  InstanceTapMacAddress : String
  InstanceGateway : String
deriving Repr, DecidableEq

/-- How `ApplyNftables` (lines 653-660) projects an `InstanceInfo` into the
template record: the gateway the guest is allowed to talk to is the host-side
TAP IP. -/
def nftInstOf (info : InstanceInfo) : NftTplInstance :=
  { Name := info.Name
    InstanceTapIP := info.InstanceTapIP
    InstanceTapMacAddress := info.InstanceTapMacAddress
    InstanceGateway := info.HostTapIP }

/-- Rendering of `templates/nftables-rules.tpl` by `text/template` for a given
egress interface and instance enumeration. Literal text (newlines included) is
emitted verbatim; `\x7b`/`\x7d` denote the literal braces of the ruleset. The
three `if .Instances` blocks render only for a non-empty enumeration, and each
`range` body is emitted once per instance, in enumeration order. -/
def renderNftables (egress : String) (instances : List NftTplInstance) : String :=
  "table ip fleetingdforwarding;\ndelete table ip fleetingdforwarding;\n" ++
  (if instances.isEmpty then "" else
    "\ntable ip fleetingdforwarding \x7b\n  chain dropnottap \x7b\n    type filter hook forward priority 0; policy drop;\n\n" ++
    String.join (instances.map (fun inst =>
      "\n    iifname \"" ++ egress ++ "\" oifname \"" ++ inst.Name ++ "\" counter accept;\n    iifname \"" ++ inst.Name ++ "\" oifname \"" ++ egress ++ "\" counter accept;\n")) ++
    "\n  \x7d\n\x7d\n") ++
  "\n\ntable netdev fleetingdfilter;\ndelete table netdev fleetingdfilter;\n" ++
  (if instances.isEmpty then "" else
    "\ntable netdev fleetingdfilter \x7b\n" ++
    String.join (instances.map (fun inst =>
      "\n  chain " ++ inst.Name ++ " \x7b\n    type filter hook ingress device \"" ++ inst.Name ++ "\" priority 0; policy accept;\n\n    ether saddr != \"" ++ inst.InstanceTapMacAddress ++ "\" counter drop;\n    ip saddr != " ++ inst.InstanceTapIP ++ " counter drop;\n\n    ip daddr " ++ inst.InstanceGateway ++ " counter accept;\n    ip daddr 172.16.120.0/24 counter drop;\n  \x7d\n")) ++
    "\n\x7d\n") ++
  "\n\ntable ip fleetingdsnat;\ndelete table ip fleetingdsnat;\n" ++
  (if instances.isEmpty then "" else
    "\ntable ip fleetingdsnat \x7b\n  chain taptonet \x7b\n    type nat hook postrouting priority 100;\n\n" ++
    String.join (instances.map (fun inst =>
      "\n    iifname " ++ inst.Name ++ " oifname \"" ++ egress ++ "\" counter masquerade fully-random;\n")) ++
    "\n  \x7d\n\x7d\n")

/-- The snapshots `ApplyNftables` can take of the inventory under its read
lock: Go map iteration (`for _, instance := range i.instances`) enumerates the
entries in an unspecified order, so any permutation of the instances map is a
possible template argument list. -/
def NftSnapshotOf (i : Inventory) (l : List NftTplInstance) : Prop :=
  l.Perm (i.instances.map (fun p => nftInstOf p.2))

instance (i : Inventory) (l : List NftTplInstance) : Decidable (NftSnapshotOf i l) := by
  unfold NftSnapshotOf
  infer_instance

/-- `func (i *Inventory) ApplyNftables(instanceGroup *InstanceGroup) error`
(lines 627-684): parse the embedded templates (always succeeds for the
embedded files), snapshot the instances under the read lock (balanced
`RLock`/`RUnlock`), create the ruleset file, render the template into it, and
run `nft -f`. The `createRuleset` / `writeRuleset` / `runNft` oracles stand
for `os.Create`, `ExecuteTemplate`'s write and the `nft` process. The state
and result do not depend on the (unspecified) map enumeration order, so the
snapshot is taken here in association-list order; the rendered bytes for
other orders are covered by `NftSnapshotOf` and `renderNftables`. -/
def ApplyNftables (g : InstanceGroup) (createRuleset writeRuleset runNft : Except String Unit)
    (i : Inventory) : OpOut Unit :=
  let args := i.instances.map (fun p => nftInstOf p.2)
  match createRuleset with
  | .error e => { inv := i, res := .err e }
  | .ok _ =>
    let _ruleset := renderNftables g.EgressInterface args
    match writeRuleset with
    | .error e => { inv := i, res := .err e }
    | .ok _ =>
      match runNft with
      | .error e => { inv := i, res := .err e }
      | .ok _ => { inv := i, res := .ok () }

/-- Lines 118-317 of `func (i *Inventory) BootInstance` — everything after the
prebuild barrier. Sequence, mirroring the source's early returns: read the
slot count under the shared lock and short-circuit when full; take the
exclusive lock; reject while shutting down; run the allocation walk; reserve
the slot; generate the SSH key pair, MAC, user-data image, overlay and kernel
path (each failure unlocks and returns, leaving the slot reserved); insert the
instance record; unlock; run the TAP-wait loop (a listing failure is
returned); finally return `ApplyNftables`'s result. `hypervisorCommand.Start`'s
error is discarded by the source, so spawning has no failure oracle. -/
def BootInstanceBody (g : InstanceGroup) (fx : BootEffects) (i : Inventory) : OpOut Unit :=
  let takenSlots := i.ipamSlots.length
  if takenSlots ≥ MaxIPAMSlots then
    { inv := i, res := .err "available VM address space exhausted" }
  else if i.shuttingDown then
    { inv := i, res := .err "system is shutting down" }
  else
    match allocLoop g i.ipamSlots 64 0 with
    | none => { inv := i, res := .err "available VM address space exhausted" }
    | some subnetBase =>
      let i1 : Inventory :=
        { i with ipamSlots := setInsert i.ipamSlots (g.MakeAddress subnetBase ++ "/30") }
      match fx.genKey with
      | .error e => { inv := i1, res := .err e }
      | .ok (pubKey, privKey) =>
        let instanceName := "fleetingd" ++ toString (subnetBase / 4)
        match fx.randRead with
        | .error e => { inv := i1, res := .err e }
        | .ok randomBytes =>
          let instanceMac := macFromRandomPart (hexEncodeBytes randomBytes)
          let hostTapIP := g.MakeAddress (subnetBase + 1)
          let instanceTapIP := g.MakeAddress (subnetBase + 2)
          match fx.createUserdata with
          | .error e => { inv := i1, res := .err e }
          | .ok _userdataPath =>
            match fx.createOverlay with
            | .error e => { inv := i1, res := .err e }
            | .ok _overlayPath =>
              match fx.getKernelFilePath with
              | .error e => { inv := i1, res := .err e }
              | .ok _kernelFilePath =>
                let info : InstanceInfo :=
                  { Name := instanceName
                    HostTapIP := hostTapIP
                    InstanceTapIP := instanceTapIP
                    InstanceTapMacAddress := instanceMac
                    SSHPublicKey := some pubKey
                    SSHPrivateKey := some privKey
                    reaperSlotBase := subnetBase }
                let i2 : Inventory :=
                  { i1 with instances := mapSet i1.instances instanceName info }
                match tapWaitLoop fx.netInterfaces instanceName 102 0 with
                | .error e => { inv := i2, res := .err e }
                | .ok _ => ApplyNftables g fx.nftCreate fx.nftWrite fx.nftRun i2

/-- `func (i *Inventory) PrebuildInstance(instanceGroup *InstanceGroup) error`
(lines 320-520). Same shape as the worker body up to the record insertion, but
with no SSH key pair (the record's key fields stay `nil`), with
`createUserdataPrebuild`, and with two extra steps: deriving the disk-image
filename from `diskImageURL` — whose error return at lines 391-394 is the only
early return of the function that does NOT call `i.lock.Unlock()` first, hence
`wHeld := 1` there — and, after `ApplyNftables` succeeds, blocking on the
`prebuildDone` channel until the reaper goroutine has deleted the slot and the
instance (the cleanup of lines 436-465). -/
def PrebuildInstance (g : InstanceGroup) (fx : BootEffects) (i : Inventory) : OpOut Unit :=
  let takenSlots := i.ipamSlots.length
  if takenSlots ≥ MaxIPAMSlots then
    { inv := i, res := .err "available VM address space exhausted" }
  else if i.shuttingDown then
    { inv := i, res := .err "system is shutting down" }
  else
    match allocLoop g i.ipamSlots 64 0 with
    | none => { inv := i, res := .err "available VM address space exhausted" }
    | some subnetBase =>
      let slotKey := g.MakeAddress subnetBase ++ "/30"
      let i1 : Inventory := { i with ipamSlots := setInsert i.ipamSlots slotKey }
      let instanceName := "fleetingd" ++ toString (subnetBase / 4)
      match fx.preRandRead with
      | .error e => { inv := i1, res := .err e }
      | .ok randomBytes =>
        let instanceMac := macFromRandomPart (hexEncodeBytes randomBytes)
        let hostTapIP := g.MakeAddress (subnetBase + 1)
        let instanceTapIP := g.MakeAddress (subnetBase + 2)
        match fx.preCreateUserdata with
        | .error e => { inv := i1, res := .err e }
        | .ok _userdataPath =>
          match fx.preDiskImageFileName with
          | .error e => { inv := i1, res := .err e, wHeld := 1 }
          | .ok _diskImageFileName =>
            match fx.preGetKernelFilePath with
            | .error e => { inv := i1, res := .err e }
            | .ok _kernelFilePath =>
              let info : InstanceInfo :=
                { Name := instanceName
                  HostTapIP := hostTapIP
                  InstanceTapIP := instanceTapIP
                  InstanceTapMacAddress := instanceMac
                  SSHPublicKey := none
                  SSHPrivateKey := none
                  reaperSlotBase := subnetBase }
              let i2 : Inventory :=
                { i1 with instances := mapSet i1.instances instanceName info }
              match tapWaitLoop fx.preNetInterfaces instanceName 102 0 with
              | .error e => { inv := i2, res := .err e }
              | .ok _ =>
                let o := ApplyNftables g fx.preNftCreate fx.preNftWrite fx.preNftRun i2
                match o.res with
                | .ok _ =>
                  let i3 : Inventory :=
                    { i2 with
                      ipamSlots := setRemove i2.ipamSlots slotKey
                      instances := mapRemove i2.instances instanceName }
                  { inv := i3, res := .ok () }
                | r => { inv := o.inv, res := r }

/-- `func (i *Inventory) RunPrebuild(instanceGroup *InstanceGroup) error`
(lines 77-105): clear the work directory, refresh the disk images, then run
the prebuild VM synchronously. -/
def RunPrebuild (g : InstanceGroup) (fx : BootEffects) (i : Inventory) : OpOut Unit :=
  match fx.prepareWorkdir with
  | .error e => { inv := i, res := .err e }
  | .ok _ =>
    match fx.ensureImages with
    | .error e => { inv := i, res := .err e }
    | .ok _ => PrebuildInstance g fx i

/-- `func (i *Inventory) BootInstance(instanceGroup *InstanceGroup) error`
(lines 107-318). The prebuild barrier `i.prebuild.Do(func() { err =
i.RunPrebuild(...) })` runs `RunPrebuild` only while the `sync.Once` is
unconsumed and consumes it whether or not `RunPrebuild` failed; when the guard
is already consumed, `err` stays `nil` and the call falls through to the
worker body. -/
def BootInstance (g : InstanceGroup) (fx : BootEffects) (i : Inventory) : OpOut Unit :=
  if i.prebuildDone then BootInstanceBody g fx i
  else
    let o := RunPrebuild g fx i
    let i1 : Inventory := { o.inv with prebuildDone := true }
    match o.res with
    | .ok _ => BootInstanceBody g fx i1
    | .err e => { inv := i1, res := .err e, rHeld := o.rHeld, wHeld := o.wHeld }
    | .fault m => { inv := i1, res := .fault m, rHeld := o.rHeld, wHeld := o.wHeld }

/-- `func (i *Inventory) DestroyInstance(name string) error` (lines 522-546).
The source takes the exclusive lock and calls
`i.instances[name].InstanceContextCancelFunc()` without checking presence: for
an absent name the map lookup yields a nil `*InstanceInfo` and the call faults
with a nil-pointer dereference (while the exclusive lock is held). For a
present name, cancellation makes the hypervisor child exit; its reaper
goroutine (lines 241-273) deletes the overlay and user-data files, takes the
lock, releases the IPAM slot keyed by its captured `subnetBase`, removes the
instance from the map, unlocks, and re-applies nftables (result discarded);
the wait loop (bounded, 100 x 100 ms) then observes the removal and returns
`nil`. The sequential model assumes the cancelled child exits within the
budget, so the `timed out waiting for instance ...` return is not taken. -/
def DestroyInstance (g : InstanceGroup) (i : Inventory) (name : String) : OpOut Unit :=
  match mapFind i.instances name with
  | none =>
    { inv := i
      res := .fault "invalid memory address or nil pointer dereference"
      wHeld := 1 }
  | some info =>
    let i1 : Inventory :=
      { i with
        ipamSlots := setRemove i.ipamSlots (g.MakeAddress info.reaperSlotBase ++ "/30")
        instances := mapRemove i.instances name }
    { inv := i1, res := .ok () }

/-- The loop of `DestroyAllInstances` over the snapshotted names: the first
destroy error is returned; a fault propagates (a panic unwinds through the
caller). -/
def destroySeq (g : InstanceGroup) (i : Inventory) : List String → OpOut Unit
  | [] => { inv := i, res := .ok () }
  | n :: rest =>
    let o := DestroyInstance g i n
    match o.res with
    | .ok _ => destroySeq g o.inv rest
    | .err e => { inv := o.inv, res := .err e, rHeld := o.rHeld, wHeld := o.wHeld }
    | .fault m => { inv := o.inv, res := .fault m, rHeld := o.rHeld, wHeld := o.wHeld }

/-- `func (i *Inventory) DestroyAllInstances() error` (lines 548-572): under
the exclusive lock set `shuttingDown` and snapshot the instance names, then
destroy each name in turn. -/
def DestroyAllInstances (g : InstanceGroup) (i : Inventory) : OpOut Unit :=
  let i0 : Inventory := { i with shuttingDown := true }
  let instanceNames := i0.instances.map Prod.fst
  destroySeq g i0 instanceNames

/-- `func (i *Inventory) GetAllInstances() []string` (lines 574-588): the
names, read under a balanced shared lock. -/
def GetAllInstances (i : Inventory) : OpOut (List String) :=
  { inv := i, res := .ok (i.instances.map Prod.fst) }

/-- Modelled from the spec: `ssh.MarshalPrivateKey` is an external collaborator
("SSH key marshaling" is out of scope per the spec's section 1), so its
behaviour on a present key is an oracle `mfx`; per the spec's data model the
prebuild instance's key fields are nil ("SSH key pair (absent for the prebuild
instance)") and marshaling a nil key fails rather than producing a key. -/
def sshMarshalPrivateKey (mfx : List Nat → Except String (List Nat)) :
    Option (List Nat) → Except String (List Nat)
  | none => .error "ssh: unsupported key type"
  | some k => mfx k

/-- The connection record assembled by `GetConnectInfo` (provider.ConnectInfo
restricted to the fields the source fills in; the PEM wrapper around the
marshalled key is kept abstract as the marshalled bytes). -/
structure ConnectInfo where
  ID : String
  InternalAddr : String
  Username : String
  ProtocolPort : Nat
  Key : List Nat
deriving Repr, DecidableEq

/-- `func (i *Inventory) GetConnectInfo(name string) (*provider.ConnectInfo,
error)` (lines 590-625). The function takes the shared lock; its two error
returns — name not found (line 597) and `ssh.MarshalPrivateKey` failure
(line 602) — happen before the `i.lock.RUnlock()` at line 622, so both return
with the read lock still held (`rHeld := 1`). -/
def GetConnectInfo (mfx : List Nat → Except String (List Nat)) (i : Inventory)
    (name : String) : OpOut ConnectInfo :=
  match mapFind i.instances name with
  | none => { inv := i, res := .err "instance not found", rHeld := 1 }
  | some instance' =>
    match sshMarshalPrivateKey mfx instance'.SSHPrivateKey with
    | .error e => { inv := i, res := .err e, rHeld := 1 }
    | .ok marshalledKey =>
      { inv := i
        res := .ok
          { ID := instance'.Name
            InternalAddr := instance'.InstanceTapIP
            Username := "ubuntu"
            ProtocolPort := 22
            Key := marshalledKey } }

/-- The loop of `InstanceGroup.Decrease` (part_000 lines 103-122): destroy each
requested instance, log-and-skip an ordinary destroy error, accumulate
successes. A fault in `DestroyInstance` is a panic and unwinds through the
loop. -/
def decreaseSeq (g : InstanceGroup) (i : Inventory) (removed : List String) :
    List String → OpOut (List String)
  | [] => { inv := i, res := .ok removed.reverse }
  | n :: rest =>
    let o := DestroyInstance g i n
    match o.res with
    | .ok _ => decreaseSeq g o.inv (n :: removed) rest
    | .err _ => decreaseSeq g o.inv removed rest
    | .fault m => { inv := o.inv, res := .fault m, rHeld := o.rHeld, wHeld := o.wHeld }

/-- `func (i *InstanceGroup) Decrease(ctx, instances)` (part_000 lines
103-122): the public shrink call, reachable with an arbitrary instance name
list. -/
def Decrease (g : InstanceGroup) (i : Inventory) (instances : List String) :
    OpOut (List String) :=
  decreaseSeq g i [] instances

/-- One external lifecycle operation against the inventory, for stating
properties over arbitrary operation sequences. A `boot` carries the
environment oracles of that call. -/
inductive Op where
  | boot (fx : BootEffects)
  | destroy (name : String)
  | destroyAll

/-- The state reached after one operation (the operation's result is dropped;
a faulting destroy leaves the state it faulted in). -/
def applyOp (g : InstanceGroup) (i : Inventory) : Op → Inventory
  | .boot fx => (BootInstance g fx i).inv
  | .destroy name => (DestroyInstance g i name).inv
  | .destroyAll => (DestroyAllInstances g i).inv

/-- The state reached after a sequence of operations. -/
def runOps (g : InstanceGroup) (i : Inventory) : List Op → Inventory
  | [] => i
  | op :: rest => runOps g (applyOp g i op) rest

/-- The coupling invariant of the inventory state: the instances map is no
larger than the IPAM set, the IPAM set respects the 63-slot cap, and before
the prebuild barrier has been consumed no slot has ever been reserved (worker
boots allocate only after the barrier, and the prebuild VM's slot is released
or the barrier consumed before `BootInstance` returns). -/
def InventoryInv (i : Inventory) : Prop :=
  i.instances.length ≤ i.ipamSlots.length ∧
  i.ipamSlots.length ≤ MaxIPAMSlots ∧
  (i.prebuildDone = false → i.ipamSlots = [])

instance (i : Inventory) : Decidable (InventoryInv i) := by
  unfold InventoryInv
  infer_instance

/-- A concrete configuration used for concrete runs: egress `eth0`, subnet
prefix `10.0.0.`. -/
def g0 : InstanceGroup :=
  { EgressInterface := "eth0"
    VMDiskDir := "/var/lib/vms"
    VMSubnet := "10.0.0."
    VMNumCPUCores := 2
    VMMemoryMegabytes := 2048
    VMDiskSizeGB := 20
    VMPrebuildCloudinitExtraCmds := []
    VMEnableVirtioConsole := false }

/-- The host's interface list once all TAP devices are up: one TAP per
possible instance name. -/
def allTaps : List String := (List.range 64).map (fun k => "fleetingd" ++ toString k)

/-- Environment oracles in which every external call succeeds and the TAP
device appears on the first poll. -/
def fxOk : BootEffects :=
  { netInterfaces := fun _ => .ok allTaps
    preNetInterfaces := fun _ => .ok allTaps }

/-- Oracles in which clearing the work directory (`prepareWorkdir`, the first
step of the prebuild barrier) fails and everything else succeeds. -/
def fxPrepFail : BootEffects :=
  { fxOk with prepareWorkdir := .error "removing the work directory failed" }

/-- Oracles in which deriving the disk-image filename inside
`PrebuildInstance` fails and everything else succeeds. -/
def fxDiskFail : BootEffects :=
  { fxOk with preDiskImageFileName := .error "parsing the disk image URL failed" }

/-- An inventory whose single registered instance is the prebuild VM: its key
fields are nil. -/
def invPre : Inventory :=
  { shuttingDown := false
    prebuildDone := true
    ipamSlots := ["10.0.0.0/30"]
    instances := [("fleetingd0",
      { Name := "fleetingd0"
        HostTapIP := "10.0.0.1"
        InstanceTapIP := "10.0.0.2"
        InstanceTapMacAddress := "de:51:aa:bb:cc:dd"
        SSHPublicKey := none
        SSHPrivateKey := none
        reaperSlotBase := 0 })] }

/-- An empty inventory whose prebuild barrier is already consumed (the state
after a first successful boot and the destruction of all instances, up to the
flag). -/
def invReady : Inventory := { NewInventory with prebuildDone := true }

/-- An inventory whose IPAM set holds all 63 slots (instances already gone, as
when the registered owners died without their reapers releasing, or slots
leaked by failed boots). -/
def inv63 : Inventory :=
  { shuttingDown := false
    prebuildDone := true
    ipamSlots := (List.range 63).map (fun k => "10.0.0." ++ toString (4 * k) ++ "/30")
    instances := [] }

/-- Template record of a first concrete instance. -/
def nftA : NftTplInstance :=
  { Name := "fleetingd0"
    InstanceTapIP := "10.0.0.2"
    InstanceTapMacAddress := "de:51:aa:bb:cc:dd"
    InstanceGateway := "10.0.0.1" }

/-- Template record of a second concrete instance. -/
def nftB : NftTplInstance :=
  { Name := "fleetingd1"
    InstanceTapIP := "10.0.0.6"
    InstanceTapMacAddress := "de:51:ee:ff:00:11"
    InstanceGateway := "10.0.0.5" }

/-- Inventory record matching `nftA`. -/
def infoA : InstanceInfo :=
  { Name := "fleetingd0"
    HostTapIP := "10.0.0.1"
    InstanceTapIP := "10.0.0.2"
    InstanceTapMacAddress := "de:51:aa:bb:cc:dd"
    SSHPublicKey := some [1]
    SSHPrivateKey := some [2]
    reaperSlotBase := 0 }

/-- Inventory record matching `nftB`. -/
def infoB : InstanceInfo :=
  { Name := "fleetingd1"
    HostTapIP := "10.0.0.5"
    InstanceTapIP := "10.0.0.6"
    InstanceTapMacAddress := "de:51:ee:ff:00:11"
    SSHPublicKey := some [3]
    SSHPrivateKey := some [4]
    reaperSlotBase := 4 }

/-- A two-instance inventory (the state after two successful boots). -/
def invTwo : Inventory :=
  { shuttingDown := false
    prebuildDone := true
    ipamSlots := ["10.0.0.4/30", "10.0.0.0/30"]
    instances := [("fleetingd0", infoA), ("fleetingd1", infoB)] }

/-- A one-instance inventory. -/
def invOne : Inventory :=
  { shuttingDown := false
    prebuildDone := true
    ipamSlots := ["10.0.0.0/30"]
    instances := [("fleetingd0", infoA)] }

/-- A throwaway instance record, used only to witness existentials in branch
characterizations. -/
def dummyInfo : InstanceInfo :=
  { Name := ""
    HostTapIP := ""
    InstanceTapIP := ""
    InstanceTapMacAddress := ""
    SSHPublicKey := none
    SSHPrivateKey := none
    reaperSlotBase := 0 }

/-- The two cardinality conjuncts of `InventoryInv` on their own. -/
def LenInv (i : Inventory) : Prop :=
  i.instances.length ≤ i.ipamSlots.length ∧ i.ipamSlots.length ≤ MaxIPAMSlots

/-! ### Library lemmas about the map and set embeddings -/

theorem length_setInsert_of_not_mem {s : List String} {k : String} (h : k ∉ s) :
    (setInsert s k).length = s.length + 1 := by
  simp [setInsert, h]

theorem length_setRemove_le (s : List String) (k : String) :
    (setRemove s k).length ≤ s.length := by
  induction s with
  | nil => simp [setRemove]
  | cons x xs ih =>
    by_cases h : x = k <;> simp [setRemove, h] <;> omega

theorem length_setRemove_ge (s : List String) (k : String) :
    s.length - 1 ≤ (setRemove s k).length := by
  induction s with
  | nil => simp [setRemove]
  | cons x xs ih =>
    by_cases h : x = k <;> simp [setRemove, h] <;> omega

theorem setRemove_cons_self (s : List String) (k : String) :
    setRemove (k :: s) k = s := by
  simp [setRemove]

theorem length_mapSet_le (m : List (String × InstanceInfo)) (k : String) (v : InstanceInfo) :
    (mapSet m k v).length ≤ m.length + 1 := by
  induction m with
  | nil => simp [mapSet]
  | cons p t ih =>
    by_cases h : p.1 = k <;> simp [mapSet, h] <;> omega

theorem mapFind_mapSet_self (m : List (String × InstanceInfo)) (k : String) (v : InstanceInfo) :
    mapFind (mapSet m k v) k = some v := by
  induction m with
  | nil => simp [mapSet, mapFind]
  | cons p t ih =>
    by_cases h : p.1 = k <;> simp [mapSet, mapFind, h, ih]

theorem length_mapRemove_le (m : List (String × InstanceInfo)) (k : String) :
    (mapRemove m k).length ≤ m.length := by
  induction m with
  | nil => simp [mapRemove]
  | cons p t ih =>
    by_cases h : p.1 = k <;> simp [mapRemove, h] <;> omega

theorem length_mapRemove_of_find {m : List (String × InstanceInfo)} {k : String}
    {v : InstanceInfo} (h : mapFind m k = some v) :
    (mapRemove m k).length + 1 = m.length := by
  induction m with
  | nil => simp [mapFind] at h
  | cons p t ih =>
    by_cases hp : p.1 = k
    · simp [mapRemove, hp]
    · simp [mapFind, hp] at h
      simp [mapRemove, hp, ih h]

/-! ### Behaviour of the allocation walk -/

/-- When the allocation walk started at `base` reserves `b`: `b` lies in the
scanned range, is reached from `base` in steps of 4, its CIDR key is free, and
every scanned base strictly before it is taken (first free base wins). -/
theorem allocLoop_some (g : InstanceGroup) (s : List String) :
    ∀ (fuel base b : Nat), allocLoop g s fuel base = some b →
    base ≤ b ∧ b < 255 - 4 ∧ (b - base) % 4 = 0 ∧ (g.MakeAddress b ++ "/30") ∉ s ∧
      (∀ b', base ≤ b' → b' < b → (b' - base) % 4 = 0 → (g.MakeAddress b' ++ "/30") ∈ s) := by
  intro fuel
  induction fuel with
  | zero => intro base b h; exact absurd h (by simp [allocLoop])
  | succ f ih =>
    intro base b h
    unfold allocLoop at h
    split at h
    · exact absurd h (by simp)
    next hlt =>
      split at h
      next hmem =>
        obtain ⟨ih1, ih2, ih3, ih4, ih5⟩ := ih (base + 4) b h
        refine ⟨by omega, ih2, by omega, ih4, ?_⟩
        intro b' hb1 hb2 hb3
        rcases Nat.eq_or_lt_of_le hb1 with heq | hgt
        · rwa [heq] at hmem
        · exact ih5 b' (by omega) hb2 (by omega)
      next hmem =>
        obtain rfl : base = b := by injection h
        exact ⟨le_refl _, by omega, by omega, hmem, fun b' h1 h2 _ => absurd h2 (by omega)⟩

/-- When the allocation walk fails and its budget covers the scanned range (as
the callers' budget 64 does), every base of the scanned range is taken: the
`available VM address space exhausted` return happens only when no scanned
base is free. -/
theorem allocLoop_none (g : InstanceGroup) (s : List String) :
    ∀ (fuel base : Nat), 255 - 4 ≤ base + 4 * fuel → allocLoop g s fuel base = none →
    ∀ b', base ≤ b' → b' < 255 - 4 → (b' - base) % 4 = 0 → (g.MakeAddress b' ++ "/30") ∈ s := by
  intro fuel
  induction fuel with
  | zero => intro base hcov h b' hb1 hb2 hb3; omega
  | succ f ih =>
    intro base hcov h b' hb1 hb2 hb3
    unfold allocLoop at h
    split at h
    next hlt => omega
    next hlt =>
      split at h
      next hmem =>
        rcases Nat.eq_or_lt_of_le hb1 with heq | hgt
        · rwa [heq] at hmem
        · exact ih (base + 4) (by omega) h b' (by omega) hb2 (by omega)
      next hmem => exact absurd h (by simp)

/-- A successfully reserved base's key is absent from the set (the walk stops
at free keys only). -/
theorem allocLoop_not_mem {g : InstanceGroup} {s : List String} {b : Nat}
    (h : allocLoop g s 64 0 = some b) : (g.MakeAddress b ++ "/30") ∉ s :=
  (allocLoop_some g s 64 0 b h).2.2.2.1

/-! ### Behaviour of the TAP-wait loop -/

/-- When every interface listing succeeds the TAP-wait loop returns without an
error, whether or not the name ever appears. -/
theorem tapWaitLoop_ok (netIfs : Nat → Except String (List String)) (nm : String)
    (hok : ∀ n, ∃ l, netIfs n = .ok l) :
    ∀ (fuel c : Nat), tapWaitLoop netIfs nm fuel c = .ok () := by
  intro fuel
  induction fuel with
  | zero => intro c; rfl
  | succ f ih =>
    intro c
    unfold tapWaitLoop
    obtain ⟨l, hl⟩ := hok c
    rw [hl]
    dsimp only
    split
    · rfl
    · exact ih (c + 1)

/-- The TAP-wait loop returns an error only by propagating a failed interface
listing. -/
theorem tapWaitLoop_error {netIfs : Nat → Except String (List String)} {nm : String} :
    ∀ {fuel c : Nat} {e : String}, tapWaitLoop netIfs nm fuel c = .error e →
    ∃ n, netIfs n = .error e := by
  intro fuel
  induction fuel with
  | zero => intro c e h; exact absurd h (by simp [tapWaitLoop])
  | succ f ih =>
    intro c e h
    unfold tapWaitLoop at h
    cases hn : netIfs c with
    | error e' =>
      rw [hn] at h
      exact ⟨c, by rw [hn]; injection h with h1; rw [h1]⟩
    | ok l =>
      rw [hn] at h
      dsimp only at h
      split at h
      · exact absurd h (by simp)
      · exact ih h

/-! ### Structural lemmas about the operations -/

/-- `ApplyNftables` never changes the inventory state. -/
theorem ApplyNftables_inv (g : InstanceGroup) (a b c : Except String Unit) (i : Inventory) :
    (ApplyNftables g a b c i).inv = i := by
  unfold ApplyNftables
  cases a <;> cases b <;> cases c <;> rfl

/-- `ApplyNftables` releases its read lock on every path. -/
theorem ApplyNftables_locks (g : InstanceGroup) (a b c : Except String Unit) (i : Inventory) :
    (ApplyNftables g a b c i).rHeld = 0 ∧ (ApplyNftables g a b c i).wHeld = 0 := by
  unfold ApplyNftables
  cases a <;> cases b <;> cases c <;> exact ⟨rfl, rfl⟩

/-- The post-state of the worker body is the entry state (guard rejections),
the entry state plus a reserved slot (failures between reservation and
insertion), or the entry state plus a reserved slot and the inserted instance
record; allocation succeeded and the cap guard passed in the latter two. -/
theorem bootBody_charac (g : InstanceGroup) (fx : BootEffects) (i : Inventory) :
    (BootInstanceBody g fx i).inv = i ∨
    ∃ b info, allocLoop g i.ipamSlots 64 0 = some b ∧ i.ipamSlots.length < MaxIPAMSlots ∧
      ((BootInstanceBody g fx i).inv =
          { i with ipamSlots := setInsert i.ipamSlots (g.MakeAddress b ++ "/30") } ∨
        (BootInstanceBody g fx i).inv =
          { i with ipamSlots := setInsert i.ipamSlots (g.MakeAddress b ++ "/30"),
                   instances := mapSet i.instances ("fleetingd" ++ toString (b / 4)) info }) := by
  unfold BootInstanceBody
  dsimp only
  split
  · exact Or.inl rfl
  split
  · exact Or.inl rfl
  split
  · exact Or.inl rfl
  rename_i hfull hsd b halloc
  have hlen : i.ipamSlots.length < MaxIPAMSlots := by omega
  refine Or.inr ?_
  split
  · exact ⟨b, dummyInfo, halloc, hlen, Or.inl rfl⟩
  split
  · exact ⟨b, dummyInfo, halloc, hlen, Or.inl rfl⟩
  split
  · exact ⟨b, dummyInfo, halloc, hlen, Or.inl rfl⟩
  split
  · exact ⟨b, dummyInfo, halloc, hlen, Or.inl rfl⟩
  split
  · exact ⟨b, dummyInfo, halloc, hlen, Or.inl rfl⟩
  split
  · exact ⟨b, _, halloc, hlen, Or.inr rfl⟩
  · rw [ApplyNftables_inv]
    exact ⟨b, _, halloc, hlen, Or.inr rfl⟩

/-- The post-state of `PrebuildInstance` is the entry state, the entry state
plus the reserved slot, that plus the inserted prebuild record, or — after the
reaper ran — the state with both inserts undone. -/
theorem prebuild_charac (g : InstanceGroup) (fx : BootEffects) (i : Inventory) :
    (PrebuildInstance g fx i).inv = i ∨
    ∃ b info, allocLoop g i.ipamSlots 64 0 = some b ∧ i.ipamSlots.length < MaxIPAMSlots ∧
      ((PrebuildInstance g fx i).inv =
          { i with ipamSlots := setInsert i.ipamSlots (g.MakeAddress b ++ "/30") } ∨
        (PrebuildInstance g fx i).inv =
          { i with ipamSlots := setInsert i.ipamSlots (g.MakeAddress b ++ "/30"),
                   instances := mapSet i.instances ("fleetingd" ++ toString (b / 4)) info } ∨
        (PrebuildInstance g fx i).inv =
          { i with
              ipamSlots := setRemove (setInsert i.ipamSlots (g.MakeAddress b ++ "/30"))
                (g.MakeAddress b ++ "/30"),
              instances := mapRemove
                (mapSet i.instances ("fleetingd" ++ toString (b / 4)) info)
                ("fleetingd" ++ toString (b / 4)) }) := by
  unfold PrebuildInstance
  dsimp only
  split
  · exact Or.inl rfl
  split
  · exact Or.inl rfl
  split
  · exact Or.inl rfl
  rename_i hfull hsd b halloc
  have hlen : i.ipamSlots.length < MaxIPAMSlots := by omega
  refine Or.inr ?_
  split
  · exact ⟨b, dummyInfo, halloc, hlen, Or.inl rfl⟩
  split
  · exact ⟨b, dummyInfo, halloc, hlen, Or.inl rfl⟩
  split
  · exact ⟨b, dummyInfo, halloc, hlen, Or.inl rfl⟩
  split
  · exact ⟨b, dummyInfo, halloc, hlen, Or.inl rfl⟩
  split
  · exact ⟨b, _, halloc, hlen, Or.inr (Or.inl rfl)⟩
  split
  · exact ⟨b, _, halloc, hlen, Or.inr (Or.inr rfl)⟩
  · rw [ApplyNftables_inv]
    exact ⟨b, _, halloc, hlen, Or.inr (Or.inl rfl)⟩

/-- The worker body never touches the `shuttingDown` and `prebuildDone`
flags. -/
theorem bootBody_flags (g : InstanceGroup) (fx : BootEffects) (i : Inventory) :
    (BootInstanceBody g fx i).inv.shuttingDown = i.shuttingDown ∧
    (BootInstanceBody g fx i).inv.prebuildDone = i.prebuildDone := by
  rcases bootBody_charac g fx i with h | ⟨b, info, _, _, h | h⟩ <;> rw [h] <;> exact ⟨rfl, rfl⟩

/-- `PrebuildInstance` never touches the `shuttingDown` and `prebuildDone`
flags. -/
theorem prebuild_flags (g : InstanceGroup) (fx : BootEffects) (i : Inventory) :
    (PrebuildInstance g fx i).inv.shuttingDown = i.shuttingDown ∧
    (PrebuildInstance g fx i).inv.prebuildDone = i.prebuildDone := by
  rcases prebuild_charac g fx i with h | ⟨b, info, _, _, h | h | h⟩ <;> rw [h] <;>
    exact ⟨rfl, rfl⟩

/-- The worker body preserves the cardinality invariants. -/
theorem bootBody_lenInv (g : InstanceGroup) (fx : BootEffects) {i : Inventory}
    (h : LenInv i) : LenInv (BootInstanceBody g fx i).inv := by
  obtain ⟨h1, h2⟩ := h
  rcases bootBody_charac g fx i with hc | ⟨b, info, halloc, hlen, hc | hc⟩ <;> rw [hc]
  · exact ⟨h1, h2⟩
  · have hins := length_setInsert_of_not_mem (allocLoop_not_mem halloc)
    exact ⟨by simp only [hins]; omega, by simp only [hins]; omega⟩
  · have hins := length_setInsert_of_not_mem (allocLoop_not_mem halloc)
    have hmap := length_mapSet_le i.instances ("fleetingd" ++ toString (b / 4)) info
    exact ⟨by simp only [hins]; omega, by simp only [hins]; omega⟩

/-- `PrebuildInstance` preserves the cardinality invariants. -/
theorem prebuild_lenInv (g : InstanceGroup) (fx : BootEffects) {i : Inventory}
    (h : LenInv i) : LenInv (PrebuildInstance g fx i).inv := by
  obtain ⟨h1, h2⟩ := h
  rcases prebuild_charac g fx i with hc | ⟨b, info, halloc, hlen, hc | hc | hc⟩ <;> rw [hc]
  · exact ⟨h1, h2⟩
  · have hins := length_setInsert_of_not_mem (allocLoop_not_mem halloc)
    exact ⟨by simp only [hins]; omega, by simp only [hins]; omega⟩
  · have hins := length_setInsert_of_not_mem (allocLoop_not_mem halloc)
    have hmap := length_mapSet_le i.instances ("fleetingd" ++ toString (b / 4)) info
    exact ⟨by simp only [hins]; omega, by simp only [hins]; omega⟩
  · have hnm := allocLoop_not_mem halloc
    have hset : setInsert i.ipamSlots (g.MakeAddress b ++ "/30") =
        (g.MakeAddress b ++ "/30") :: i.ipamSlots := by
      simp [setInsert, hnm]
    have hrem : setRemove (setInsert i.ipamSlots (g.MakeAddress b ++ "/30"))
        (g.MakeAddress b ++ "/30") = i.ipamSlots := by
      rw [hset, setRemove_cons_self]
    have hfind := mapFind_mapSet_self i.instances ("fleetingd" ++ toString (b / 4)) info
    have hrm := length_mapRemove_of_find hfind
    have hmap := length_mapSet_le i.instances ("fleetingd" ++ toString (b / 4)) info
    exact ⟨by simp only [hrem]; omega, by simp only [hrem]; omega⟩

/-- `RunPrebuild` preserves the cardinality invariants. -/
theorem runPrebuild_lenInv (g : InstanceGroup) (fx : BootEffects) {i : Inventory}
    (h : LenInv i) : LenInv (RunPrebuild g fx i).inv := by
  unfold RunPrebuild
  cases fx.prepareWorkdir <;> dsimp only
  · exact h
  cases fx.ensureImages <;> dsimp only
  · exact h
  · exact prebuild_lenInv g fx h

/-- `RunPrebuild` never touches the flags. -/
theorem runPrebuild_flags (g : InstanceGroup) (fx : BootEffects) (i : Inventory) :
    (RunPrebuild g fx i).inv.shuttingDown = i.shuttingDown ∧
    (RunPrebuild g fx i).inv.prebuildDone = i.prebuildDone := by
  unfold RunPrebuild
  cases fx.prepareWorkdir <;> dsimp only
  · exact ⟨rfl, rfl⟩
  cases fx.ensureImages <;> dsimp only
  · exact ⟨rfl, rfl⟩
  · exact prebuild_flags g fx i

/-- `BootInstance` preserves the full inventory invariant. -/
theorem boot_inv (g : InstanceGroup) (fx : BootEffects) {i : Inventory}
    (h : InventoryInv i) : InventoryInv (BootInstance g fx i).inv := by
  obtain ⟨h1, h2, h3⟩ := h
  unfold BootInstance
  split
  next hp =>
    obtain ⟨l1, l2⟩ := bootBody_lenInv g fx ⟨h1, h2⟩
    refine ⟨l1, l2, fun hf => ?_⟩
    rw [(bootBody_flags g fx i).2, hp] at hf
    exact Bool.noConfusion hf
  next hp =>
    have hlen : LenInv (RunPrebuild g fx i).inv := runPrebuild_lenInv g fx ⟨h1, h2⟩
    dsimp only
    split
    · obtain ⟨l1, l2⟩ :=
        bootBody_lenInv g fx (i := { (RunPrebuild g fx i).inv with prebuildDone := true }) hlen
      refine ⟨l1, l2, fun hf => ?_⟩
      rw [(bootBody_flags g fx _).2] at hf
      exact Bool.noConfusion hf
    · exact ⟨hlen.1, hlen.2, fun hf => Bool.noConfusion hf⟩
    · exact ⟨hlen.1, hlen.2, fun hf => Bool.noConfusion hf⟩

/-- `BootInstance` never changes the `shuttingDown` flag. -/
theorem boot_sd (g : InstanceGroup) (fx : BootEffects) (i : Inventory) :
    (BootInstance g fx i).inv.shuttingDown = i.shuttingDown := by
  unfold BootInstance
  split
  · exact (bootBody_flags g fx i).1
  · dsimp only
    split
    · rw [(bootBody_flags g fx _).1]
      exact (runPrebuild_flags g fx i).1
    · exact (runPrebuild_flags g fx i).1
    · exact (runPrebuild_flags g fx i).1

/-- `DestroyInstance` preserves the full inventory invariant. -/
theorem destroy_inv (g : InstanceGroup) {i : Inventory} (name : String)
    (h : InventoryInv i) : InventoryInv (DestroyInstance g i name).inv := by
  obtain ⟨h1, h2, h3⟩ := h
  unfold DestroyInstance
  split
  · exact ⟨h1, h2, h3⟩
  next info hfind =>
    have hrm := length_mapRemove_of_find hfind
    have hsl := length_setRemove_le i.ipamSlots (g.MakeAddress info.reaperSlotBase ++ "/30")
    have hsg := length_setRemove_ge i.ipamSlots (g.MakeAddress info.reaperSlotBase ++ "/30")
    refine ⟨by dsimp only; omega, by dsimp only; omega, fun hf => ?_⟩
    have := h3 hf
    dsimp only
    rw [this]
    rfl

/-- `DestroyInstance` never changes the flags. -/
theorem destroy_flags (g : InstanceGroup) (i : Inventory) (name : String) :
    (DestroyInstance g i name).inv.shuttingDown = i.shuttingDown ∧
    (DestroyInstance g i name).inv.prebuildDone = i.prebuildDone := by
  unfold DestroyInstance
  split <;> exact ⟨rfl, rfl⟩

/-- The destroy loop preserves the full invariant. -/
theorem destroySeq_inv (g : InstanceGroup) :
    ∀ (ns : List String) {i : Inventory}, InventoryInv i →
      InventoryInv (destroySeq g i ns).inv := by
  intro ns
  induction ns with
  | nil => intro i h; exact h
  | cons n rest ih =>
    intro i h
    unfold destroySeq
    dsimp only
    split
    · exact ih (destroy_inv g n h)
    · exact destroy_inv g n h
    · exact destroy_inv g n h

/-- The destroy loop never changes the `shuttingDown` flag. -/
theorem destroySeq_sd (g : InstanceGroup) :
    ∀ (ns : List String) (i : Inventory),
      (destroySeq g i ns).inv.shuttingDown = i.shuttingDown := by
  intro ns
  induction ns with
  | nil => intro i; rfl
  | cons n rest ih =>
    intro i
    unfold destroySeq
    dsimp only
    split
    · rw [ih]
      exact (destroy_flags g i n).1
    · exact (destroy_flags g i n).1
    · exact (destroy_flags g i n).1

/-- `DestroyAllInstances` preserves the full invariant. -/
theorem destroyAll_inv (g : InstanceGroup) {i : Inventory} (h : InventoryInv i) :
    InventoryInv (DestroyAllInstances g i).inv := by
  unfold DestroyAllInstances
  exact destroySeq_inv g _ ⟨h.1, h.2.1, h.2.2⟩

/-- After `DestroyAllInstances` the `shuttingDown` flag is set. -/
theorem destroyAll_sd (g : InstanceGroup) (i : Inventory) :
    (DestroyAllInstances g i).inv.shuttingDown = true := by
  unfold DestroyAllInstances
  rw [destroySeq_sd]

/-- Every lifecycle operation preserves the inventory invariant. -/
theorem applyOp_inv (g : InstanceGroup) {i : Inventory} (op : Op)
    (h : InventoryInv i) : InventoryInv (applyOp g i op) := by
  cases op with
  | boot fx => exact boot_inv g fx h
  | destroy name => exact destroy_inv g name h
  | destroyAll => exact destroyAll_inv g h

/-- Every lifecycle operation preserves a set `shuttingDown` flag. -/
theorem applyOp_sd (g : InstanceGroup) {i : Inventory} (op : Op)
    (h : i.shuttingDown = true) : (applyOp g i op).shuttingDown = true := by
  cases op with
  | boot fx => rw [applyOp, boot_sd]; exact h
  | destroy name => rw [applyOp, (destroy_flags g i name).1]; exact h
  | destroyAll => exact destroyAll_sd g i

/-- Any state reachable from the fresh inventory satisfies the invariant. -/
theorem runOps_inv (g : InstanceGroup) :
    ∀ (ops : List Op) {i : Inventory}, InventoryInv i →
      InventoryInv (runOps g i ops) := by
  intro ops
  induction ops with
  | nil => intro i h; exact h
  | cons op rest ih => intro i h; exact ih (applyOp_inv g op h)

/-- The fresh inventory satisfies the invariant. -/
theorem newInventory_inv : InventoryInv NewInventory := by
  refine ⟨le_refl 0, ?_, fun _ => rfl⟩
  decide

/-- While `shuttingDown` is set the worker body rejects before any mutation:
the state is untouched and an error is returned. -/
theorem bootBody_shutdown (g : InstanceGroup) (fx : BootEffects) {i : Inventory}
    (h : i.shuttingDown = true) :
    (BootInstanceBody g fx i).inv = i ∧ ∃ e, (BootInstanceBody g fx i).res = .err e := by
  unfold BootInstanceBody
  dsimp only
  split
  · exact ⟨rfl, _, rfl⟩
  · exact ⟨rfl, _, rfl⟩

/-- While `shuttingDown` is set `PrebuildInstance` rejects before any
mutation. -/
theorem prebuild_shutdown (g : InstanceGroup) (fx : BootEffects) {i : Inventory}
    (h : i.shuttingDown = true) :
    (PrebuildInstance g fx i).inv = i ∧ ∃ e, (PrebuildInstance g fx i).res = .err e := by
  unfold PrebuildInstance
  dsimp only
  split
  · exact ⟨rfl, _, rfl⟩
  · exact ⟨rfl, _, rfl⟩

/-- While `shuttingDown` is set `RunPrebuild` mutates nothing and errors
(either one of the image-preparation steps fails, or the prebuild VM is
rejected). -/
theorem runPrebuild_shutdown (g : InstanceGroup) (fx : BootEffects) {i : Inventory}
    (h : i.shuttingDown = true) :
    (RunPrebuild g fx i).inv = i ∧ ∃ e, (RunPrebuild g fx i).res = .err e := by
  unfold RunPrebuild
  cases fx.prepareWorkdir <;> dsimp only
  · exact ⟨rfl, _, rfl⟩
  cases fx.ensureImages <;> dsimp only
  · exact ⟨rfl, _, rfl⟩
  · exact prebuild_shutdown g fx h

/-- While `shuttingDown` is set `BootInstance` inserts nothing (neither an
instance nor a slot) and always returns an error. -/
theorem boot_shutdown (g : InstanceGroup) (fx : BootEffects) {i : Inventory}
    (h : i.shuttingDown = true) :
    (BootInstance g fx i).inv.instances = i.instances ∧
    (BootInstance g fx i).inv.ipamSlots = i.ipamSlots ∧
    ∃ e, (BootInstance g fx i).res = .err e := by
  unfold BootInstance
  split
  · obtain ⟨hinv, e, hres⟩ := bootBody_shutdown g fx h
    exact ⟨by rw [hinv], by rw [hinv], e, hres⟩
  · obtain ⟨hinv, e, hres⟩ := runPrebuild_shutdown g fx h
    dsimp only
    rw [hres]
    dsimp only
    exact ⟨by rw [hinv], by rw [hinv], e, rfl⟩

/-- While `shuttingDown` is set and the barrier is consumed and the IPAM set is
below the cap, `BootInstance` fails with the shutting-down error message. -/
theorem boot_shutdown_msg (g : InstanceGroup) (fx : BootEffects) {i : Inventory}
    (h : i.shuttingDown = true) (hp : i.prebuildDone = true)
    (hlen : i.ipamSlots.length < MaxIPAMSlots) :
    (BootInstance g fx i).res = .err "system is shutting down" := by
  unfold BootInstance
  rw [if_pos hp]
  unfold BootInstanceBody
  dsimp only
  rw [if_neg (by omega : ¬ i.ipamSlots.length ≥ MaxIPAMSlots), if_pos h]

/-! ### Lock-ledger lemmas -/

/-- The worker body releases every lock on every path. -/
theorem bootBody_locks (g : InstanceGroup) (fx : BootEffects) (i : Inventory) :
    (BootInstanceBody g fx i).rHeld = 0 ∧ (BootInstanceBody g fx i).wHeld = 0 := by
  unfold BootInstanceBody
  dsimp only
  split
  · exact ⟨rfl, rfl⟩
  split
  · exact ⟨rfl, rfl⟩
  split
  · exact ⟨rfl, rfl⟩
  split
  · exact ⟨rfl, rfl⟩
  split
  · exact ⟨rfl, rfl⟩
  split
  · exact ⟨rfl, rfl⟩
  split
  · exact ⟨rfl, rfl⟩
  split
  · exact ⟨rfl, rfl⟩
  split
  · exact ⟨rfl, rfl⟩
  · exact ApplyNftables_locks g fx.nftCreate fx.nftWrite fx.nftRun _

/-- `PrebuildInstance` never returns holding the shared lock. -/
theorem prebuild_rHeld (g : InstanceGroup) (fx : BootEffects) (i : Inventory) :
    (PrebuildInstance g fx i).rHeld = 0 := by
  unfold PrebuildInstance
  dsimp only
  split
  · rfl
  split
  · rfl
  split
  · rfl
  split
  · rfl
  split
  · rfl
  split
  · rfl
  split
  · rfl
  split
  · rfl
  split
  · rfl
  · rfl

/-- Unless the disk-image-filename derivation fails, `PrebuildInstance`
releases the exclusive lock on every path. -/
theorem prebuild_wHeld_ok (g : InstanceGroup) (fx : BootEffects) (i : Inventory)
    (hok : ∀ e, fx.preDiskImageFileName ≠ .error e) :
    (PrebuildInstance g fx i).wHeld = 0 := by
  unfold PrebuildInstance
  dsimp only
  split
  · rfl
  split
  · rfl
  split
  · rfl
  split
  · rfl
  split
  · rfl
  split
  next e heq => exact absurd heq (hok e)
  split
  · rfl
  split
  · rfl
  split
  · rfl
  · rfl

/-- When the walk reserves a slot, the random bytes and the prebuild user-data
image succeed, and deriving the disk-image filename fails, `PrebuildInstance`
returns that error while still holding the exclusive lock taken at line 330
(the only early return of the inventory code with no `Unlock` before it). -/
theorem prebuild_wHeld_leak (g : InstanceGroup) (fx : BootEffects) (i : Inventory)
    (b : Nat) (rb : List Nat) (ud e : String)
    (hsd : i.shuttingDown = false) (hlen : i.ipamSlots.length < MaxIPAMSlots)
    (halloc : allocLoop g i.ipamSlots 64 0 = some b)
    (hrr : fx.preRandRead = .ok rb) (hcu : fx.preCreateUserdata = .ok ud)
    (hdf : fx.preDiskImageFileName = .error e) :
    (PrebuildInstance g fx i).wHeld = 1 ∧ (PrebuildInstance g fx i).res = .err e := by
  unfold PrebuildInstance
  dsimp only
  rw [if_neg (by omega : ¬ i.ipamSlots.length ≥ MaxIPAMSlots),
    if_neg (by simp [hsd] : ¬ i.shuttingDown = true), halloc]
  dsimp only
  rw [hrr]
  dsimp only
  rw [hcu]
  dsimp only
  rw [hdf]
  exact ⟨rfl, rfl⟩

/-- `DestroyInstance` returns only `ok` or a fault, never a Go `error` (the
timeout return is unreachable in the sequential model, where the reaper has
completed by the time the wait loop polls). -/
theorem destroy_no_err (g : InstanceGroup) (i : Inventory) (name : String) (e : String) :
    (DestroyInstance g i name).res ≠ .err e := by
  unfold DestroyInstance
  split <;> simp

/-- On every non-panicking return `DestroyInstance` holds no lock. -/
theorem destroy_locks (g : InstanceGroup) (i : Inventory) (name : String)
    (h : ∀ m, (DestroyInstance g i name).res ≠ .fault m) :
    (DestroyInstance g i name).rHeld = 0 ∧ (DestroyInstance g i name).wHeld = 0 := by
  unfold DestroyInstance at h ⊢
  split at h
  · exact absurd rfl (h _)
  · exact ⟨rfl, rfl⟩

/-- On every non-panicking return the destroy loop holds no lock. -/
theorem destroySeq_locks (g : InstanceGroup) :
    ∀ (ns : List String) (i : Inventory),
      (∀ m, (destroySeq g i ns).res ≠ .fault m) →
      (destroySeq g i ns).rHeld = 0 ∧ (destroySeq g i ns).wHeld = 0 := by
  intro ns
  induction ns with
  | nil => intro i _; exact ⟨rfl, rfl⟩
  | cons n rest ih =>
    intro i h
    unfold destroySeq at h ⊢
    dsimp only at h ⊢
    cases hr : (DestroyInstance g i n).res with
    | ok _ =>
      rw [hr] at h
      dsimp only at h ⊢
      exact ih _ h
    | err e => exact absurd hr (destroy_no_err g i n e)
    | fault m =>
      rw [hr] at h
      dsimp only at h
      exact absurd rfl (h m)

/-- On every non-panicking return `DestroyAllInstances` holds no lock. -/
theorem destroyAll_locks (g : InstanceGroup) (i : Inventory)
    (h : ∀ m, (DestroyAllInstances g i).res ≠ .fault m) :
    (DestroyAllInstances g i).rHeld = 0 ∧ (DestroyAllInstances g i).wHeld = 0 := by
  unfold DestroyAllInstances at h ⊢
  exact destroySeq_locks g _ _ h

/-- `RunPrebuild` never returns holding the shared lock. -/
theorem runPrebuild_rHeld (g : InstanceGroup) (fx : BootEffects) (i : Inventory) :
    (RunPrebuild g fx i).rHeld = 0 := by
  unfold RunPrebuild
  cases fx.prepareWorkdir <;> dsimp only
  cases fx.ensureImages <;> dsimp only
  exact prebuild_rHeld g fx i

/-- `BootInstance` never returns holding the shared lock. -/
theorem boot_rHeld (g : InstanceGroup) (fx : BootEffects) (i : Inventory) :
    (BootInstance g fx i).rHeld = 0 := by
  unfold BootInstance
  split
  · exact (bootBody_locks g fx i).1
  · dsimp only
    split
    · exact (bootBody_locks g fx _).1
    · exact runPrebuild_rHeld g fx i
    · exact runPrebuild_rHeld g fx i

/-- Once the prebuild barrier is consumed, `BootInstance` releases every lock
on every path. -/
theorem boot_locks_done (g : InstanceGroup) (fx : BootEffects) (i : Inventory)
    (hp : i.prebuildDone = true) :
    (BootInstance g fx i).rHeld = 0 ∧ (BootInstance g fx i).wHeld = 0 := by
  unfold BootInstance
  rw [if_pos hp]
  exact bootBody_locks g fx i

/-! ### The claims -/

/-- Claim C1: the claim states that a failed first prebuild attempt permits a
retry on the next `boot_worker` call. The code contradicts this: the barrier
is a `sync.Once`, consumed even when `RunPrebuild` fails. Evaluating the model
at the failing input: the first call with a failing `prepareWorkdir` returns
that error and consumes the guard; the second call with the identical failing
environment does not re-run the prebuild at all — it succeeds and boots a
worker (`fleetingd0`) against the never-prepared image. -/
theorem claim_c1_once_guard_consumed_on_failure :
    (BootInstance g0 fxPrepFail NewInventory).res = .err "removing the work directory failed" ∧
    (BootInstance g0 fxPrepFail NewInventory).inv.prebuildDone = true ∧
    (BootInstance g0 fxPrepFail (BootInstance g0 fxPrepFail NewInventory).inv).res = .ok () ∧
    (BootInstance g0 fxPrepFail
        (BootInstance g0 fxPrepFail NewInventory).inv).inv.instances.map Prod.fst
      = ["fleetingd0"] := by
  exact ⟨by decide, by decide, by decide, by decide⟩

/-- Claim C3 (counterexample): the claim says every post-`destroy_all`
`boot_worker` fails with the address-space-exhausted kind (shutting-down
encoding). Concretely, when `destroy_all` runs before the prebuild barrier was
ever consumed and the next boot's workdir preparation fails, the call fails
with the preparation error instead — neither the shutting-down nor the
space-exhausted encoding. -/
theorem claim_c3_shutdown_cex :
    (BootInstance g0 fxPrepFail (DestroyAllInstances g0 NewInventory).inv).res
        = .err "removing the work directory failed" ∧
    (BootInstance g0 fxPrepFail (DestroyAllInstances g0 NewInventory).inv).res
        ≠ .err "system is shutting down" ∧
    (BootInstance g0 fxPrepFail (DestroyAllInstances g0 NewInventory).inv).res
        ≠ .err "available VM address space exhausted" := by
  exact ⟨by decide, by decide, by decide⟩

/-- Claim C3 (amended): `destroy_all` sets `shuttingDown`; no later operation
ever clears it; while it is set `boot_worker` never inserts an instance (nor a
slot) and always fails; and the failure is the shutting-down encoding whenever
the prebuild barrier is already consumed and the IPAM set is below the cap (a
still-pending barrier may surface its own preparation error first, and a full
IPAM set the space-exhausted encoding). -/
theorem claim_c3_shutdown_monotone :
    (∀ (g : InstanceGroup) (i : Inventory),
        (DestroyAllInstances g i).inv.shuttingDown = true) ∧
    (∀ (g : InstanceGroup) (i : Inventory) (op : Op),
        i.shuttingDown = true → (applyOp g i op).shuttingDown = true) ∧
    (∀ (g : InstanceGroup) (fx : BootEffects) (i : Inventory),
        i.shuttingDown = true →
        (BootInstance g fx i).inv.instances = i.instances ∧
        (BootInstance g fx i).inv.ipamSlots = i.ipamSlots ∧
        ∃ e, (BootInstance g fx i).res = .err e) ∧
    (∀ (g : InstanceGroup) (fx : BootEffects) (i : Inventory),
        i.shuttingDown = true → i.prebuildDone = true →
        i.ipamSlots.length < MaxIPAMSlots →
        (BootInstance g fx i).res = .err "system is shutting down") := by
  refine ⟨destroyAll_sd, ?_, ?_, ?_⟩
  · intro g i op h
    exact applyOp_sd g op h
  · intro g fx i h
    exact boot_shutdown g fx h
  · intro g fx i h hp hlen
    exact boot_shutdown_msg g fx h hp hlen

/-- Claim C3 witness: the amended theorem applied at concrete inputs — a
shutting-down two-instance inventory rejects a boot without touching the
instances map, with the shutting-down error, and a destroy operation keeps the
flag set. -/
theorem claim_c3_shutdown_monotone_witness :
    ((applyOp g0 { invTwo with shuttingDown := true } (.destroy "fleetingd0")).shuttingDown
        = true) ∧
    (BootInstance g0 fxOk { invTwo with shuttingDown := true }).inv.instances
        = ({ invTwo with shuttingDown := true } : Inventory).instances ∧
    (BootInstance g0 fxOk { invTwo with shuttingDown := true }).res
        = .err "system is shutting down" :=
  ⟨claim_c3_shutdown_monotone.2.1 g0 { invTwo with shuttingDown := true }
      (.destroy "fleetingd0") rfl,
    (claim_c3_shutdown_monotone.2.2.1 g0 fxOk { invTwo with shuttingDown := true } rfl).1,
    claim_c3_shutdown_monotone.2.2.2 g0 fxOk { invTwo with shuttingDown := true }
      rfl rfl (by decide)⟩

/-- Claim C5: from the fresh inventory no sequence of boot and destroy
operations makes the number of live instances, or of reserved IPAM slots,
exceed 63; and a `boot_worker` call made in any invariant-satisfying state
with 63 reserved slots changes nothing and fails with the
address-space-exhausted error. -/
theorem claim_c5_capacity_cap :
    (∀ (g : InstanceGroup) (ops : List Op),
        (runOps g NewInventory ops).instances.length ≤ MaxIPAMSlots ∧
        (runOps g NewInventory ops).ipamSlots.length ≤ MaxIPAMSlots) ∧
    (∀ (g : InstanceGroup) (fx : BootEffects) (i : Inventory),
        InventoryInv i → i.ipamSlots.length = MaxIPAMSlots →
        (BootInstance g fx i).inv = i ∧
        (BootInstance g fx i).res = .err "available VM address space exhausted") := by
  constructor
  · intro g ops
    have h := runOps_inv g ops newInventory_inv
    exact ⟨le_trans h.1 h.2.1, h.2.1⟩
  · intro g fx i hinv hfull
    have hp : i.prebuildDone = true := by
      cases hpc : i.prebuildDone
      · rw [hinv.2.2 hpc] at hfull
        exact absurd hfull.symm (by decide)
      · rfl
    unfold BootInstance
    rw [if_pos hp]
    unfold BootInstanceBody
    dsimp only
    rw [if_pos (by omega : i.ipamSlots.length ≥ MaxIPAMSlots)]
    exact ⟨rfl, rfl⟩

/-- Claim C5 witness: the capacity theorem applied at the empty operation
sequence and at a concrete full inventory (63 reserved slots), where the boot
changes nothing and reports exhaustion. -/
theorem claim_c5_capacity_cap_witness :
    ((runOps g0 NewInventory []).instances.length ≤ MaxIPAMSlots ∧
      (runOps g0 NewInventory []).ipamSlots.length ≤ MaxIPAMSlots) ∧
    (BootInstance g0 fxOk inv63).inv = inv63 ∧
    (BootInstance g0 fxOk inv63).res = .err "available VM address space exhausted" :=
  ⟨claim_c5_capacity_cap.1 g0 [],
    (claim_c5_capacity_cap.2 g0 fxOk inv63 (by decide) (by decide)).1,
    (claim_c5_capacity_cap.2 g0 fxOk inv63 (by decide) (by decide)).2⟩

/-- Claim C6: the allocation walk scans bases 0, 4, 8, ... in ascending order
and reserves the first base whose CIDR key is absent (lowest free base wins);
it fails only when every scanned base is taken; and in the literal scenario —
boot three, destroy the middle instance, boot one more — the new boot reserves
slot 4 again (key `10.0.0.4/30`, name `fleetingd1`), not slot 12. -/
theorem claim_c6_lowest_free_slot :
    (∀ (g : InstanceGroup) (s : List String) (b : Nat),
        allocLoop g s 64 0 = some b →
        b % 4 = 0 ∧ b ≤ 248 ∧ (g.MakeAddress b ++ "/30") ∉ s ∧
          ∀ b', b' % 4 = 0 → b' < b → (g.MakeAddress b' ++ "/30") ∈ s) ∧
    (∀ (g : InstanceGroup) (s : List String),
        allocLoop g s 64 0 = none →
        ∀ b', b' % 4 = 0 → b' ≤ 248 → (g.MakeAddress b' ++ "/30") ∈ s) ∧
    ((runOps g0 invReady
          [.boot fxOk, .boot fxOk, .boot fxOk, .destroy "fleetingd1", .boot fxOk]).ipamSlots
        = ["10.0.0.4/30", "10.0.0.8/30", "10.0.0.0/30"] ∧
      (mapFind (runOps g0 invReady
          [.boot fxOk, .boot fxOk, .boot fxOk, .destroy "fleetingd1", .boot fxOk]).instances
          "fleetingd1").isSome = true ∧
      "10.0.0.12/30" ∉ (runOps g0 invReady
          [.boot fxOk, .boot fxOk, .boot fxOk, .destroy "fleetingd1", .boot fxOk]).ipamSlots) := by
  refine ⟨?_, ?_, by decide, by decide, by decide⟩
  · intro g s b h
    obtain ⟨h1, h2, h3, h4, h5⟩ := allocLoop_some g s 64 0 b h
    refine ⟨by omega, by omega, h4, ?_⟩
    intro b' hb1 hb2
    exact h5 b' (Nat.zero_le _) hb2 (by omega)
  · intro g s h b' hb1 hb2
    exact allocLoop_none g s 64 0 (by omega) h b' (Nat.zero_le _) (by omega) (by omega)

/-- Claim C6 witness: the walk lemmas applied at concrete sets — with slot 0
taken the walk reserves base 4; with all 63 scanned bases taken it fails
having scanned `10.0.0.248/30` too. -/
theorem claim_c6_lowest_free_slot_witness :
    ((4 : Nat) % 4 = 0 ∧ (4 : Nat) ≤ 248 ∧ (g0.MakeAddress 4 ++ "/30") ∉ ["10.0.0.0/30"] ∧
      ∀ b', b' % 4 = 0 → b' < 4 → (g0.MakeAddress b' ++ "/30") ∈ ["10.0.0.0/30"]) ∧
    (g0.MakeAddress 248 ++ "/30") ∈ inv63.ipamSlots :=
  ⟨claim_c6_lowest_free_slot.1 g0 ["10.0.0.0/30"] 4 (by decide),
    claim_c6_lowest_free_slot.2.1 g0 inv63.ipamSlots (by decide) 248 (by decide) (by decide)⟩

/-- Claim C9: for a name absent from the instances map, `DestroyInstance`
does not fail gracefully: the unchecked map lookup yields a nil entry and
calling its cancellation function panics with a nil dereference, and the panic
is reachable from the public `Decrease` call with an arbitrary name. -/
theorem claim_c9_destroy_absent_faults :
    ∀ (g : InstanceGroup) (i : Inventory) (name : String),
      mapFind i.instances name = none →
      (DestroyInstance g i name).res
          = .fault "invalid memory address or nil pointer dereference" ∧
      (Decrease g i [name]).res
          = .fault "invalid memory address or nil pointer dereference" := by
  intro g i name h
  constructor
  · unfold DestroyInstance
    rw [h]
  · unfold Decrease decreaseSeq
    dsimp only
    have hd : (DestroyInstance g i name).res
        = .fault "invalid memory address or nil pointer dereference" := by
      unfold DestroyInstance
      rw [h]
    rw [hd]

/-- Claim C9 witness: destroying the unknown name `ghost` in the fresh
inventory panics, directly and through `Decrease`. -/
theorem claim_c9_destroy_absent_faults_witness :
    (DestroyInstance g0 NewInventory "ghost").res
        = .fault "invalid memory address or nil pointer dereference" ∧
    (Decrease g0 NewInventory ["ghost"]).res
        = .fault "invalid memory address or nil pointer dereference" :=
  claim_c9_destroy_absent_faults g0 NewInventory "ghost" rfl

/-- Claim C2 (counterexample): the claim says a step-1 failure after the slot
was inserted removes the slot again, leaving the IPAM set unchanged.
Concretely, a boot whose user-data creation fails returns the error with the
freshly reserved slot still in the set: the set changed from `[]` to
`["10.0.0.0/30"]`. -/
theorem claim_c2_rollback_cex :
    (BootInstance g0 { fxOk with createUserdata := .error "creating the user-data image failed" }
        invReady).res = .err "creating the user-data image failed" ∧
    (BootInstance g0 { fxOk with createUserdata := .error "creating the user-data image failed" }
        invReady).inv.ipamSlots = ["10.0.0.0/30"] ∧
    invReady.ipamSlots = [] := by
  exact ⟨by decide, by decide, by decide⟩

/-- Claim C2 (amended): when a step-1 operation fails after the slot's CIDR
was inserted (SSH key generation, MAC random bytes, user-data image, overlay,
or kernel-path derivation), the error is returned with the slot still
reserved: the IPAM set after the failed call is the entry set plus the
allocated slot — no rollback happens — while the instances map is unchanged. -/
theorem claim_c2_slot_leaked_on_step1_failure :
    ∀ (g : InstanceGroup) (fx : BootEffects) (i : Inventory) (b : Nat),
      i.prebuildDone = true → i.shuttingDown = false →
      i.ipamSlots.length < MaxIPAMSlots →
      allocLoop g i.ipamSlots 64 0 = some b →
      ((∃ e, fx.genKey = .error e) ∨ (∃ e, fx.randRead = .error e) ∨
        (∃ e, fx.createUserdata = .error e) ∨ (∃ e, fx.createOverlay = .error e) ∨
        (∃ e, fx.getKernelFilePath = .error e)) →
      (∃ e, (BootInstance g fx i).res = .err e) ∧
      (BootInstance g fx i).inv.ipamSlots
          = setInsert i.ipamSlots (g.MakeAddress b ++ "/30") ∧
      (BootInstance g fx i).inv.instances = i.instances := by
  intro g fx i b hp hsd hlen halloc hfail
  unfold BootInstance
  rw [if_pos hp]
  unfold BootInstanceBody
  dsimp only
  rw [if_neg (by omega : ¬ i.ipamSlots.length ≥ MaxIPAMSlots),
    if_neg (by simp [hsd] : ¬ i.shuttingDown = true), halloc]
  dsimp only
  cases hg : fx.genKey with
  | error e => exact ⟨⟨e, rfl⟩, rfl, rfl⟩
  | ok kp =>
    obtain ⟨pubKey, privKey⟩ := kp
    cases hr : fx.randRead with
    | error e => exact ⟨⟨e, rfl⟩, rfl, rfl⟩
    | ok rb =>
      cases hu : fx.createUserdata with
      | error e => exact ⟨⟨e, rfl⟩, rfl, rfl⟩
      | ok ud =>
        cases ho : fx.createOverlay with
        | error e => exact ⟨⟨e, rfl⟩, rfl, rfl⟩
        | ok ov =>
          cases hk : fx.getKernelFilePath with
          | error e => exact ⟨⟨e, rfl⟩, rfl, rfl⟩
          | ok kfp =>
            rcases hfail with ⟨e, he⟩ | ⟨e, he⟩ | ⟨e, he⟩ | ⟨e, he⟩ | ⟨e, he⟩ <;>
              simp_all

/-- Claim C2 witness: the amended theorem applied at a concrete failing
overlay creation from the empty ready inventory: the call errors and the slot
`10.0.0.0/30` stays reserved. -/
theorem claim_c2_slot_leaked_on_step1_failure_witness :
    (∃ e, (BootInstance g0 { fxOk with createOverlay := .error "qemu-img create failed" }
        invReady).res = .err e) ∧
    (BootInstance g0 { fxOk with createOverlay := .error "qemu-img create failed" }
        invReady).inv.ipamSlots = setInsert invReady.ipamSlots (g0.MakeAddress 0 ++ "/30") ∧
    (BootInstance g0 { fxOk with createOverlay := .error "qemu-img create failed" }
        invReady).inv.instances = invReady.instances :=
  claim_c2_slot_leaked_on_step1_failure g0
    { fxOk with createOverlay := .error "qemu-img create failed" } invReady 0
    rfl rfl (by decide) (by decide)
    (Or.inr (Or.inr (Or.inr (Or.inl ⟨"qemu-img create failed", rfl⟩))))

/-- Claim C4 (counterexample): the claim says the instance created from slot
`s` is named `"pool" + (s/4)`. The code names it `"fleetingd" + (s/4)`:
booting from the empty inventory creates exactly `fleetingd0`, and no `pool0`
entry exists. -/
theorem claim_c4_name_cex :
    (BootInstance g0 fxOk invReady).inv.instances.map Prod.fst = ["fleetingd0"] ∧
    mapFind (BootInstance g0 fxOk invReady).inv.instances ("pool" ++ toString (0 / 4)) = none ∧
    "fleetingd0" ≠ "pool" ++ toString (0 / 4) := by
  exact ⟨by decide, by decide, by decide⟩

/-- Claim C4 (amended): for every worker instance created from slot `b`, the
instance name is `"fleetingd" + (b/4)` (not `"pool" + (b/4)`), the host-TAP IP
is the configured prefix followed by `b+1`, and the guest-TAP IP is the
configured prefix followed by `b+2`. -/
theorem claim_c4_name_and_ip_determinism :
    ∀ (g : InstanceGroup) (fx : BootEffects) (i : Inventory) (b : Nat)
      (pubKey privKey rb : List Nat) (ud ov kfp : String),
      i.prebuildDone = true → i.shuttingDown = false →
      i.ipamSlots.length < MaxIPAMSlots →
      allocLoop g i.ipamSlots 64 0 = some b →
      fx.genKey = .ok (pubKey, privKey) → fx.randRead = .ok rb →
      fx.createUserdata = .ok ud → fx.createOverlay = .ok ov →
      fx.getKernelFilePath = .ok kfp →
      mapFind (BootInstance g fx i).inv.instances ("fleetingd" ++ toString (b / 4))
          = some
            { Name := "fleetingd" ++ toString (b / 4)
              HostTapIP := g.MakeAddress (b + 1)
              InstanceTapIP := g.MakeAddress (b + 2)
              InstanceTapMacAddress := macFromRandomPart (hexEncodeBytes rb)
              SSHPublicKey := some pubKey
              SSHPrivateKey := some privKey
              reaperSlotBase := b } ∧
        g.MakeAddress (b + 1) = g.VMSubnet ++ toString (b + 1) ∧
        g.MakeAddress (b + 2) = g.VMSubnet ++ toString (b + 2) := by
  intro g fx i b pubKey privKey rb ud ov kfp hp hsd hlen halloc hg hr hu ho hk
  refine ⟨?_, rfl, rfl⟩
  unfold BootInstance
  rw [if_pos hp]
  unfold BootInstanceBody
  dsimp only
  rw [if_neg (by omega : ¬ i.ipamSlots.length ≥ MaxIPAMSlots),
    if_neg (by simp [hsd] : ¬ i.shuttingDown = true), halloc]
  dsimp only
  rw [hg]
  dsimp only
  rw [hr]
  dsimp only
  rw [hu]
  dsimp only
  rw [ho]
  dsimp only
  rw [hk]
  dsimp only
  cases tapWaitLoop fx.netInterfaces ("fleetingd" ++ toString (b / 4)) 102 0 with
  | error e => exact mapFind_mapSet_self _ _ _
  | ok u =>
    dsimp only
    rw [ApplyNftables_inv]
    exact mapFind_mapSet_self _ _ _

/-- Claim C4 witness: the amended theorem applied at the empty ready
inventory; slot 0 yields `fleetingd0` with host TAP `10.0.0.1` and guest TAP
`10.0.0.2`. -/
theorem claim_c4_name_and_ip_determinism_witness :
    mapFind (BootInstance g0 fxOk invReady).inv.instances ("fleetingd" ++ toString (0 / 4))
        = some
          { Name := "fleetingd" ++ toString (0 / 4)
            HostTapIP := g0.MakeAddress (0 + 1)
            InstanceTapIP := g0.MakeAddress (0 + 2)
            InstanceTapMacAddress := macFromRandomPart (hexEncodeBytes [0, 0, 0, 0])
            SSHPublicKey := some [1]
            SSHPrivateKey := some [2]
            reaperSlotBase := 0 } ∧
      g0.MakeAddress (0 + 1) = g0.VMSubnet ++ toString (0 + 1) ∧
      g0.MakeAddress (0 + 2) = g0.VMSubnet ++ toString (0 + 2) :=
  claim_c4_name_and_ip_determinism g0 fxOk invReady 0 [1] [2] [0, 0, 0, 0]
    "userdata.img" "overlay.img" "noble-server-cloudimg-amd64-vmlinuz-generic"
    rfl rfl (by decide) (by decide) rfl rfl rfl rfl rfl

set_option maxRecDepth 40000 in
/-- Claim C7 (counterexample): the claim says rendering the ruleset twice from
the same inventory yields byte-identical text. Go map iteration order is
unspecified, so the two renders may enumerate the same inventory in different
orders; for the concrete two-instance inventory both orders are snapshots of
the same inventory yet render to different bytes. -/
theorem claim_c7_render_cex :
    NftSnapshotOf invTwo [nftA, nftB] ∧ NftSnapshotOf invTwo [nftB, nftA] ∧
    renderNftables "eth0" [nftA, nftB] ≠ renderNftables "eth0" [nftB, nftA] := by
  exact ⟨by decide, by decide, by decide⟩

/-- Claim C7 (amended): the rendered bytes are a function of the enumeration
the map iteration yields, so two renders from the same inventory are
byte-identical whenever the inventory holds at most one instance; with two or
more instances, different iteration orders can differ (see the
counterexample). -/
theorem claim_c7_render_deterministic_upto_order :
    ∀ (i : Inventory) (egress : String) (e1 e2 : List NftTplInstance),
      i.instances.length ≤ 1 →
      NftSnapshotOf i e1 → NftSnapshotOf i e2 →
      renderNftables egress e1 = renderNftables egress e2 := by
  intro i egress e1 e2 hlen h1 h2
  unfold NftSnapshotOf at h1 h2
  have hlenl : (i.instances.map (fun p => nftInstOf p.2)).length ≤ 1 := by
    rw [List.length_map]
    exact hlen
  cases hml : i.instances.map (fun p => nftInstOf p.2) with
  | nil =>
    rw [hml] at h1 h2
    rw [h1.eq_nil, h2.eq_nil]
  | cons a t =>
    cases t with
    | nil =>
      rw [hml] at h1 h2
      rw [List.perm_singleton.mp h1, List.perm_singleton.mp h2]
    | cons a2 t2 =>
      rw [hml] at hlenl
      simp at hlenl

/-- Claim C7 witness: the amended theorem applied at the one-instance
inventory, whose only possible enumeration is the singleton. -/
theorem claim_c7_render_deterministic_upto_order_witness :
    renderNftables "eth0" [nftA] = renderNftables "eth0" [nftA] :=
  claim_c7_render_deterministic_upto_order invOne "eth0" [nftA] [nftA]
    (by decide) (by decide) (by decide)

/-- Claim C8 (counterexample): the claim says the TAP-wait loop never returns
an error, even when listing the host's interfaces fails. In the code a failed
`net.Interfaces()` is returned from inside the loop: with a failing listing
oracle the boot fails with that error and never reaches the packet-filter
step (whose own failing oracle is never surfaced). -/
theorem claim_c8_tapwait_cex :
    (BootInstance g0
        { fxOk with
          netInterfaces := fun _ => .error "listing the network interfaces failed"
          nftRun := .error "nft rejected the ruleset" }
        invReady).res = .err "listing the network interfaces failed" := by
  decide

/-- Claim C8 (amended): the TAP-wait loop never errors provided every
interface listing succeeds — it returns `ok` whether the TAP appeared or the
budget elapsed — and it errors exactly by propagating a failed listing;
when every listing succeeds, a boot that reached the wait loop proceeds to the
packet-filter step, whose result it returns. -/
theorem claim_c8_tapwait_bounded :
    (∀ (netIfs : Nat → Except String (List String)) (nm : String) (fuel c : Nat),
        (∀ n, ∃ l, netIfs n = .ok l) → tapWaitLoop netIfs nm fuel c = .ok ()) ∧
    (∀ (netIfs : Nat → Except String (List String)) (nm : String) (fuel c : Nat) (e : String),
        tapWaitLoop netIfs nm fuel c = .error e → ∃ n, netIfs n = .error e) ∧
    (∀ (g : InstanceGroup) (fx : BootEffects) (i : Inventory) (b : Nat)
        (pubKey privKey rb : List Nat) (ud ov kfp : String),
        i.prebuildDone = true → i.shuttingDown = false →
        i.ipamSlots.length < MaxIPAMSlots →
        allocLoop g i.ipamSlots 64 0 = some b →
        fx.genKey = .ok (pubKey, privKey) → fx.randRead = .ok rb →
        fx.createUserdata = .ok ud → fx.createOverlay = .ok ov →
        fx.getKernelFilePath = .ok kfp →
        (∀ n, ∃ l, fx.netInterfaces n = .ok l) →
        (BootInstance g fx i).res =
          (ApplyNftables g fx.nftCreate fx.nftWrite fx.nftRun
            (BootInstance g fx i).inv).res) := by
  refine ⟨fun netIfs nm fuel c hok => tapWaitLoop_ok netIfs nm hok fuel c,
    fun netIfs nm fuel c e h => tapWaitLoop_error h, ?_⟩
  intro g fx i b pubKey privKey rb ud ov kfp hp hsd hlen halloc hg hr hu ho hk hnet
  unfold BootInstance
  rw [if_pos hp]
  unfold BootInstanceBody
  dsimp only
  rw [if_neg (by omega : ¬ i.ipamSlots.length ≥ MaxIPAMSlots),
    if_neg (by simp [hsd] : ¬ i.shuttingDown = true), halloc]
  dsimp only
  rw [hg]
  dsimp only
  rw [hr]
  dsimp only
  rw [hu]
  dsimp only
  rw [ho]
  dsimp only
  rw [hk]
  dsimp only
  rw [tapWaitLoop_ok fx.netInterfaces _ hnet 102 0]
  dsimp only
  rw [ApplyNftables_inv]

/-- Claim C8 witness: the amended theorem applied at concrete inputs — a loop
whose listings all succeed (TAP never appears) returns `ok`; a concrete
erroring loop's error comes from a listing; and a concrete boot's result is
the packet-filter step's result. -/
theorem claim_c8_tapwait_bounded_witness :
    tapWaitLoop (fun _ => .ok []) "fleetingd0" 102 0 = .ok () ∧
    (∃ n : Nat, (fun _ : Nat => (Except.error "down" : Except String (List String))) n
        = Except.error "down") ∧
    (BootInstance g0 fxOk invReady).res =
      (ApplyNftables g0 fxOk.nftCreate fxOk.nftWrite fxOk.nftRun
        (BootInstance g0 fxOk invReady).inv).res :=
  ⟨claim_c8_tapwait_bounded.1 (fun _ => .ok []) "fleetingd0" 102 0 (fun n => ⟨[], rfl⟩),
    claim_c8_tapwait_bounded.2.1 (fun _ => .error "down") "fleetingd0" 102 0 "down" rfl,
    claim_c8_tapwait_bounded.2.2 g0 fxOk invReady 0 [1] [2] [0, 0, 0, 0]
      "userdata.img" "overlay.img" "noble-server-cloudimg-amd64-vmlinuz-generic"
      rfl rfl (by decide) (by decide) rfl rfl rfl rfl rfl
      (fun n => ⟨allTaps, rfl⟩)⟩

/-- Claim C10: every inventory operation releases each lock it acquired
before returning, except the enumerated paths: `GetConnectInfo` returns with
the shared read lock still held when the name is absent or when the private
key fails to marshal (always the case for the prebuild instance, whose key
fields are nil), and `PrebuildInstance` returns holding the exclusive lock
when deriving the disk-image filename fails. (`DestroyInstance` and the bulk
shutdown are stated over non-panicking returns; the nil-dereference panic of
claim C9 aborts the call without returning.) -/
theorem claim_c10_lock_discipline :
    (∀ (g : InstanceGroup) (fx : BootEffects) (i : Inventory),
        (BootInstance g fx i).rHeld = 0) ∧
    (∀ (g : InstanceGroup) (fx : BootEffects) (i : Inventory),
        i.prebuildDone = true →
        (BootInstance g fx i).rHeld = 0 ∧ (BootInstance g fx i).wHeld = 0) ∧
    (∀ (g : InstanceGroup) (fx : BootEffects) (i : Inventory),
        (PrebuildInstance g fx i).rHeld = 0) ∧
    (∀ (g : InstanceGroup) (fx : BootEffects) (i : Inventory),
        (∀ e, fx.preDiskImageFileName ≠ .error e) →
        (PrebuildInstance g fx i).wHeld = 0) ∧
    (∀ (g : InstanceGroup) (fx : BootEffects) (i : Inventory) (b : Nat)
        (rb : List Nat) (ud e : String),
        i.shuttingDown = false → i.ipamSlots.length < MaxIPAMSlots →
        allocLoop g i.ipamSlots 64 0 = some b →
        fx.preRandRead = .ok rb → fx.preCreateUserdata = .ok ud →
        fx.preDiskImageFileName = .error e →
        (PrebuildInstance g fx i).wHeld = 1 ∧ (PrebuildInstance g fx i).res = .err e) ∧
    (∀ (g : InstanceGroup) (i : Inventory) (name : String),
        (∀ m, (DestroyInstance g i name).res ≠ .fault m) →
        (DestroyInstance g i name).rHeld = 0 ∧ (DestroyInstance g i name).wHeld = 0) ∧
    (∀ (g : InstanceGroup) (i : Inventory),
        (∀ m, (DestroyAllInstances g i).res ≠ .fault m) →
        (DestroyAllInstances g i).rHeld = 0 ∧ (DestroyAllInstances g i).wHeld = 0) ∧
    (∀ (i : Inventory),
        (GetAllInstances i).rHeld = 0 ∧ (GetAllInstances i).wHeld = 0) ∧
    (∀ (g : InstanceGroup) (a b c : Except String Unit) (i : Inventory),
        (ApplyNftables g a b c i).rHeld = 0 ∧ (ApplyNftables g a b c i).wHeld = 0) ∧
    (∀ (mfx : List Nat → Except String (List Nat)) (i : Inventory) (name : String)
        (info : InstanceInfo) (k : List Nat),
        mapFind i.instances name = some info →
        sshMarshalPrivateKey mfx info.SSHPrivateKey = .ok k →
        (GetConnectInfo mfx i name).rHeld = 0 ∧ (GetConnectInfo mfx i name).wHeld = 0) ∧
    (∀ (mfx : List Nat → Except String (List Nat)) (i : Inventory) (name : String),
        mapFind i.instances name = none →
        (GetConnectInfo mfx i name).rHeld = 1 ∧
        (GetConnectInfo mfx i name).res = .err "instance not found") ∧
    (∀ (mfx : List Nat → Except String (List Nat)) (i : Inventory) (name : String)
        (info : InstanceInfo) (e : String),
        mapFind i.instances name = some info →
        sshMarshalPrivateKey mfx info.SSHPrivateKey = .error e →
        (GetConnectInfo mfx i name).rHeld = 1 ∧
        (GetConnectInfo mfx i name).res = .err e) ∧
    (∀ (mfx : List Nat → Except String (List Nat)) (i : Inventory) (name : String)
        (info : InstanceInfo),
        mapFind i.instances name = some info →
        info.SSHPrivateKey = none →
        (GetConnectInfo mfx i name).rHeld = 1 ∧
        (GetConnectInfo mfx i name).res = .err "ssh: unsupported key type") := by
  refine ⟨boot_rHeld, boot_locks_done, prebuild_rHeld, prebuild_wHeld_ok, ?_, destroy_locks,
    destroyAll_locks, fun i => ⟨rfl, rfl⟩, ApplyNftables_locks, ?_, ?_, ?_, ?_⟩
  · intro g fx i b rb ud e hsd hlen halloc hrr hcu hdf
    exact prebuild_wHeld_leak g fx i b rb ud e hsd hlen halloc hrr hcu hdf
  · intro mfx i name info k hfind hmarshal
    unfold GetConnectInfo
    rw [hfind]
    dsimp only
    rw [hmarshal]
    exact ⟨rfl, rfl⟩
  · intro mfx i name hfind
    unfold GetConnectInfo
    rw [hfind]
    exact ⟨rfl, rfl⟩
  · intro mfx i name info e hfind hmarshal
    unfold GetConnectInfo
    rw [hfind]
    dsimp only
    rw [hmarshal]
    exact ⟨rfl, rfl⟩
  · intro mfx i name info hfind hkey
    unfold GetConnectInfo
    rw [hfind]
    dsimp only
    rw [hkey]
    exact ⟨rfl, rfl⟩

/-- Claim C10 witness: the lock-discipline theorem applied at concrete inputs:
balanced boots, destroys and queries on concrete inventories; the read-lock
leaks of `GetConnectInfo` for the unknown name `ghost`, for a failing
marshal, and for the prebuild instance's nil key; and the exclusive-lock leak
of `PrebuildInstance` under a failing disk-image-filename derivation. -/
theorem claim_c10_lock_discipline_witness :
    ((BootInstance g0 fxOk invReady).rHeld = 0 ∧ (BootInstance g0 fxOk invReady).wHeld = 0) ∧
    (PrebuildInstance g0 fxOk NewInventory).wHeld = 0 ∧
    ((PrebuildInstance g0 fxDiskFail invReady).wHeld = 1 ∧
      (PrebuildInstance g0 fxDiskFail invReady).res
        = .err "parsing the disk image URL failed") ∧
    ((DestroyInstance g0 invOne "fleetingd0").rHeld = 0 ∧
      (DestroyInstance g0 invOne "fleetingd0").wHeld = 0) ∧
    ((DestroyAllInstances g0 invOne).rHeld = 0 ∧
      (DestroyAllInstances g0 invOne).wHeld = 0) ∧
    ((GetConnectInfo (fun k => .ok k) invOne "fleetingd0").rHeld = 0 ∧
      (GetConnectInfo (fun k => .ok k) invOne "fleetingd0").wHeld = 0) ∧
    ((GetConnectInfo (fun k => .ok k) NewInventory "ghost").rHeld = 1 ∧
      (GetConnectInfo (fun k => .ok k) NewInventory "ghost").res
        = .err "instance not found") ∧
    ((GetConnectInfo (fun _ => .error "ssh marshal failed") invOne "fleetingd0").rHeld = 1 ∧
      (GetConnectInfo (fun _ => .error "ssh marshal failed") invOne "fleetingd0").res
        = .err "ssh marshal failed") ∧
    ((GetConnectInfo (fun k => .ok k) invPre "fleetingd0").rHeld = 1 ∧
      (GetConnectInfo (fun k => .ok k) invPre "fleetingd0").res
        = .err "ssh: unsupported key type") :=
  ⟨claim_c10_lock_discipline.2.1 g0 fxOk invReady rfl,
    claim_c10_lock_discipline.2.2.2.1 g0 fxOk NewInventory
      (by
        intro e h
        rw [show fxOk.preDiskImageFileName = .ok "noble-server-cloudimg-amd64.img" from rfl] at h
        exact Except.noConfusion h),
    claim_c10_lock_discipline.2.2.2.2.1 g0 fxDiskFail invReady 0 [0, 0, 0, 0]
      "prebuild_userdata.img" "parsing the disk image URL failed"
      rfl (by decide) (by decide) rfl rfl rfl,
    claim_c10_lock_discipline.2.2.2.2.2.1 g0 invOne "fleetingd0"
      (by
        intro m hm
        rw [show (DestroyInstance g0 invOne "fleetingd0").res = .ok () from by decide] at hm
        exact Res.noConfusion hm),
    claim_c10_lock_discipline.2.2.2.2.2.2.1 g0 invOne
      (by
        intro m hm
        rw [show (DestroyAllInstances g0 invOne).res = .ok () from by decide] at hm
        exact Res.noConfusion hm),
    claim_c10_lock_discipline.2.2.2.2.2.2.2.2.2.1 (fun k => .ok k) invOne "fleetingd0"
      infoA [2] (by decide) rfl,
    claim_c10_lock_discipline.2.2.2.2.2.2.2.2.2.2.1 (fun k => .ok k) NewInventory "ghost" rfl,
    claim_c10_lock_discipline.2.2.2.2.2.2.2.2.2.2.2.1
      (fun _ => .error "ssh marshal failed") invOne "fleetingd0" infoA
      "ssh marshal failed" (by decide) rfl,
    claim_c10_lock_discipline.2.2.2.2.2.2.2.2.2.2.2.2
      (fun k => .ok k) invPre "fleetingd0"
      { Name := "fleetingd0"
        HostTapIP := "10.0.0.1"
        InstanceTapIP := "10.0.0.2"
        InstanceTapMacAddress := "de:51:aa:bb:cc:dd"
        SSHPublicKey := none
        SSHPrivateKey := none
        reaperSlotBase := 0 }
      (by decide) rfl⟩

end Fleetingd
